import Mathlib

/-!
Verification of the snapshot generation engine of the browser-agent
repository.  The document tree is modelled as a rose tree of elements;
host-platform queries (role, visibility, accessible name, geometry) are
recorded as per-node oracle fields, following the specification, which
treats the node inspector results as facts queryable from the host.
The mode renderers, the traversal engine, the pattern filter and the
formatting utilities are translated from the TypeScript sources.
-/

namespace BTCP

/-! ## Whitespace utilities (format.ts, filter.ts) -/

/-- Whitespace test used to model the regex class backslash-s of the host
language (space, tab, newline, carriage return). -/
def isWsChar (c : Char) : Bool :=
  c = ' ' || c = '\t' || c = '\n' || c = '\r'

/-- Model of the substitution of every whitespace run by a single space,
as in the source expression str.replace of the whitespace-run regex by
one space. -/
def collapseWs : List Char → List Char
  | [] => []
  | c :: cs =>
    if isWsChar c then ' ' :: collapseWs (cs.dropWhile isWsChar)
    else c :: collapseWs cs
termination_by l => l.length
decreasing_by
  · exact Nat.lt_succ_of_le ((List.dropWhile_suffix isWsChar).length_le)
  · exact Nat.lt_succ_self _

/-- Model of String.prototype.trim: drop whitespace at both ends. -/
def trimWs (l : List Char) : List Char :=
  ((l.dropWhile isWsChar).reverse.dropWhile isWsChar).reverse

/-- The cleaning step shared by truncate and truncateByType in format.ts:
collapse whitespace runs to single spaces, then trim. -/
def cleanStr (s : String) : String :=
  ⟨trimWs (collapseWs s.data)⟩

/-- Maximal non-whitespace runs of a character list; models
str.trim().split on whitespace runs with empty entries dropped
(countWords in filter.ts). -/
def wsRuns : List Char → List (List Char)
  | [] => []
  | c :: cs =>
    if isWsChar c then wsRuns cs
    else (c :: cs.takeWhile (fun d => !isWsChar d)) ::
      wsRuns (cs.dropWhile (fun d => !isWsChar d))
termination_by l => l.length
decreasing_by
  · exact Nat.lt_succ_self _
  · exact Nat.lt_succ_of_le
      ((List.dropWhile_suffix (fun d => !isWsChar d)).length_le)

/-- countWords from filter.ts. -/
def countWords (s : String) : Nat :=
  (wsRuns s.data).length

/-- Substring containment, the model of String.prototype.includes. -/
def containsSub (s pat : String) : Bool :=
  s.data.tails.any (fun t => pat.data.isPrefixOf t)

/-! ## Canonical decimal rendering (the model of JavaScript
number-to-string conversion for non-negative integers) -/

/-- Canonical base-10 rendering of a natural number. -/
def natToString (n : Nat) : String :=
  if n = 0 then "0"
  else ⟨((Nat.digits 10 n).map Nat.digitChar).reverse⟩

/-- Digit characters are recovered by subtracting the code of zero. -/
theorem digitChar_val {d : Nat} (hd : d < 10) :
    (Nat.digitChar d).toNat - 48 = d := by
  interval_cases d <;> rfl

/-- Decoder that makes natToString injective. -/
def decodeDecimal (s : String) : Nat :=
  Nat.ofDigits 10 (s.data.reverse.map (fun c => c.toNat - 48))

theorem decode_natToString (n : Nat) : decodeDecimal (natToString n) = n := by
  unfold natToString decodeDecimal
  by_cases h : n = 0
  · subst h; rfl
  · simp only [h, if_false]
    rw [List.reverse_reverse, List.map_map]
    have : (Nat.digits 10 n).map ((fun c => c.toNat - 48) ∘ Nat.digitChar)
        = Nat.digits 10 n := by
      conv_rhs => rw [← List.map_id (Nat.digits 10 n)]
      apply List.map_congr_left
      intro d hdmem
      exact digitChar_val (Nat.digits_lt_base (by norm_num) hdmem)
    rw [this, Nat.ofDigits_digits]

theorem natToString_injective : Function.Injective natToString := by
  intro a b h
  have := congrArg decodeDecimal h
  rwa [decode_natToString, decode_natToString] at this

/-- Canonical decimal form: nonempty, all digits, and a leading zero only
for the string "0" itself. -/
def canonicalDecimal (s : String) : Prop :=
  s.data ≠ [] ∧ (∀ c ∈ s.data, c.isDigit = true) ∧
    (s.data.head? = some '0' → s = "0")

theorem digitChar_isDigit {d : Nat} (hd : d < 10) :
    (Nat.digitChar d).isDigit = true := by
  interval_cases d <;> rfl

theorem digitChar_ne_zero_char {d : Nat} (hd : d < 10) (h0 : d ≠ 0) :
    Nat.digitChar d ≠ '0' := by
  interval_cases d <;> simp_all <;> decide

theorem natToString_canonical (n : Nat) : canonicalDecimal (natToString n) := by
  by_cases h : n = 0
  · subst h
    refine ⟨by decide, by decide, fun _ => rfl⟩
  · have hne : Nat.digits 10 n ≠ [] := Nat.digits_ne_nil_iff_ne_zero.mpr h
    have hform : (natToString n).data
        = ((Nat.digits 10 n).map Nat.digitChar).reverse := by
      unfold natToString
      simp [h]
    refine ⟨?_, ?_, ?_⟩
    · rw [hform]
      simp only [ne_eq, List.reverse_eq_nil_iff, List.map_eq_nil_iff]
      exact hne
    · intro c hc
      rw [hform] at hc
      rw [List.mem_reverse, List.mem_map] at hc
      obtain ⟨d, hdmem, rfl⟩ := hc
      exact digitChar_isDigit (Nat.digits_lt_base (by norm_num) hdmem)
    · intro hhead
      exfalso
      rw [hform] at hhead
      rw [List.head?_reverse] at hhead
      have hlast := List.getLast?_map Nat.digitChar (Nat.digits 10 n)
      rw [hlast] at hhead
      obtain ⟨d, hd_eq, hd_char⟩ := Option.map_eq_some'.mp hhead
      obtain ⟨hne', hd_val⟩ :=
        List.mem_getLast?_eq_getLast (Option.mem_def.mpr hd_eq)
      have hd_mem : d ∈ Nat.digits 10 n := hd_val ▸ List.getLast_mem hne'
      have hdlt : d < 10 := Nat.digits_lt_base (by norm_num) hd_mem
      have hdne : d ≠ 0 := by
        intro hd0
        exact Nat.getLast_digit_ne_zero 10 h (hd_val ▸ hd0)
      exact digitChar_ne_zero_char hdlt hdne hd_char

/-! ## Truncation (format.ts) -/

/-- Keys of the TRUNCATE_LIMITS table in format.ts. -/
inductive TruncType where
  | ELEMENT_NAME | TEXT_SHORT | TEXT_LONG | ERROR_MESSAGE | URL
deriving DecidableEq

/-- TRUNCATE_LIMITS from format.ts. -/
def TRUNCATE_LIMITS : TruncType → Nat
  | .ELEMENT_NAME => 50
  | .TEXT_SHORT => 80
  | .TEXT_LONG => 120
  | .ERROR_MESSAGE => 100
  | .URL => 150

/-- truncateByType from format.ts. -/
def truncateByType (s : String) (ty : TruncType) : String :=
  let maxLength := TRUNCATE_LIMITS ty
  let cleaned := cleanStr s
  if cleaned.data.length ≤ maxLength then cleaned
  else ⟨cleaned.data.take (maxLength - 3)⟩ ++ "..."

/-- truncate from format.ts (explicit length bound). -/
def truncate (s : String) (maxLength : Nat) : String :=
  let cleaned := cleanStr s
  if cleaned.data.length ≤ maxLength then cleaned
  else ⟨cleaned.data.take (maxLength - 3)⟩ ++ "..."

/-- getCleanTextContent from filter.ts; the optional maxLength argument is
checked for truthiness in the source, so the none case models both an
absent argument and a zero argument. -/
def getCleanText (text : String) (maxLength : Option Nat) : String :=
  let cleaned := ⟨trimWs (collapseWs text.data)⟩
  match maxLength with
  | some m =>
    if m ≠ 0 ∧ cleaned.data.length > m then ⟨cleaned.data.take (m - 3)⟩ ++ "..."
    else cleaned
  | none => cleaned

/-! ## The document tree model

Nodes are host-platform objects; the node inspector functions of
utils/inspect.ts (getRole, isVisible, isInteractive, getAccessibleName,
getInputAttributes, buildSemanticXPath, generateSelector,
generateSimpleSelector, getSemanticClass, getSectionName, isInViewport)
are pure per-node queries, so each node carries their results as oracle
fields, together with the raw facts the renderers read directly
(tag name, id, attributes, geometry, direct text). -/

structure EData where
  /-- Lower-case tag name (element.tagName.toLowerCase()). -/
  tag : String := "div"
  /-- The id attribute, empty when absent. -/
  idAttr : String := ""
  /-- aria-label attribute. -/
  ariaLabel : Option String := none
  /-- Whether an href attribute is present (for the a[href] selector). -/
  href : Bool := false
  /-- The role attribute as written in the markup (selector [role=...]). -/
  roleAttr : Option String := none
  /-- The tabindex attribute value when present. -/
  tabindex : Option Int := none
  /-- Result of getRole: the computed semantic role, none when the
  element has no role. -/
  role : Option String := none
  /-- Result of isVisible(el, false): own computed style visible. -/
  visible : Bool := true
  /-- Result of isVisible(el, true): visible including ancestors. -/
  visibleAnc : Bool := true
  /-- Result of isInteractive. -/
  interactive : Bool := false
  /-- Result of getAccessibleName (never null, possibly empty). -/
  name : String := ""
  /-- Result of buildSemanticXPath. -/
  xpath : String := ""
  /-- Result of generateSelector. -/
  selector : String := ""
  /-- Result of generateSimpleSelector (geometry-failure fallback). -/
  simpleSelector : String := ""
  /-- Result of getSectionName. -/
  sectionName : String := ""
  /-- Whether getSemanticClass returns a meaningful class. -/
  semanticCls : Bool := false
  /-- Result of getInputAttributes, appended verbatim by the renderer
  (empty for non-form controls). -/
  inputAttrs : String := ""
  /-- disabled attribute present. -/
  disabled : Bool := false
  /-- checked property. -/
  checked : Bool := false
  /-- aria-expanded attribute equals true. -/
  expanded : Bool := false
  /-- aria-selected attribute equals true. -/
  selected : Bool := false
  /-- getBoundingClientRect result (x, y, width, height); none models a
  node whose geometry query throws. -/
  bbox : Option (Int × Int × Int × Int) := none
  /-- Result of isInViewport. -/
  inViewport : Bool := false
  /-- Direct text content of the node (own text nodes). -/
  ownText : String := ""
  /-- className string (for detectCodeLanguage). -/
  className : String := ""

/-- A document-tree element: inspector data plus ordered children. -/
inductive Elem where
  | node (data : EData) (children : List Elem)

def Elem.data : Elem → EData
  | .node d _ => d

def Elem.children : Elem → List Elem
  | .node _ c => c

mutual
/-- Number of nodes in the subtree rooted at an element. -/
def Elem.size : Elem → Nat
  | .node _ c => 1 + sizeList c
def sizeList : List Elem → Nat
  | [] => 0
  | e :: es => Elem.size e + sizeList es
end

theorem size_pos (e : Elem) : 0 < e.size := by
  cases e with
  | node d c => simp [Elem.size]

mutual
/-- textContent: concatenation of all text in the subtree. -/
def Elem.textContent : Elem → String
  | .node d c => d.ownText ++ textContentList c
def textContentList : List Elem → String
  | [] => ""
  | e :: es => Elem.textContent e ++ textContentList es
end

mutual
/-- Pre-order list of the subtree including the element itself. -/
def Elem.subtreeList : Elem → List Elem
  | .node d c => .node d c :: subtreeListL c
def subtreeListL : List Elem → List Elem
  | [] => []
  | e :: es => Elem.subtreeList e ++ subtreeListL es
end

/-- Proper descendants in pre-order (the scope of querySelectorAll). -/
def Elem.descList (e : Elem) : List Elem :=
  subtreeListL e.children

/-- Count of proper descendants satisfying a predicate, the model of
element.querySelectorAll(sel).length. -/
def Elem.countDesc (e : Elem) (p : Elem → Bool) : Nat :=
  (e.descList.countP p)

/-- Count over the subtree including the element itself, the model of
countChildElements in filter.ts, which walks from the element itself. -/
def Elem.countSelfDesc (e : Elem) (p : Elem → Bool) : Nat :=
  (e.subtreeList.countP p)

/-! ## Traversal engine (utils/traverse.ts) -/

/-- TraverseOptions from traverse.ts, with the source defaults. -/
structure TraverseOptions where
  maxDepth : Nat := 50
  includeHidden : Bool := false
  checkAncestors : Bool := false

/-- The isVisible call made by the traversal: the checkAncestors flag
selects which host visibility fact is consulted. -/
def elemVis (e : Elem) (checkAncestors : Bool) : Bool :=
  if checkAncestors then e.data.visibleAnc else e.data.visible

theorem sizeList_append (a b : List Elem) :
    sizeList (a ++ b) = sizeList a + sizeList b := by
  induction a with
  | nil => simp [sizeList]
  | cons x xs ih => simp [sizeList, ih]; omega

mutual
/-- Inner generator of traverseElements: stops above maxDepth, prunes a
whole branch when the element fails the visibility check (unless
includeHidden), otherwise yields the node then its children in order. -/
def travE (o : TraverseOptions) : Elem → Nat → List (Elem × Nat)
  | .node d c, depth =>
    if depth > o.maxDepth then []
    else if !o.includeHidden && !(elemVis (.node d c) o.checkAncestors) then []
    else ((Elem.node d c), depth) :: travL o c (depth + 1)
def travL (o : TraverseOptions) : List Elem → Nat → List (Elem × Nat)
  | [], _ => []
  | e :: es, d => travE o e d ++ travL o es d
end

/-- traverseElements from traverse.ts (the yielded sequence). -/
def traverseElements (root : Elem) (o : TraverseOptions) : List (Elem × Nat) :=
  travE o root 0

/-- collectElements from traverse.ts. -/
def collectElements (root : Elem) (o : TraverseOptions) : List Elem :=
  (traverseElements root o).map Prod.fst

/-- Histogram returned by countInteractiveDescendants. -/
structure Counts where
  buttons : Nat := 0
  links : Nat := 0
  inputs : Nat := 0
  other : Nat := 0
deriving DecidableEq

def Counts.add (a b : Counts) : Counts :=
  ⟨a.buttons + b.buttons, a.links + b.links, a.inputs + b.inputs,
    a.other + b.other⟩

/-- Per-node contribution of the stack walk in
countInteractiveDescendants: visible interactive nodes are classified by
role or tag, others contribute nothing. -/
def cidContrib (e : Elem) : Counts :=
  if e.data.visible && e.data.interactive then
    if e.data.role = some "button" || e.data.tag = "button" then
      ⟨1, 0, 0, 0⟩
    else if e.data.role = some "link" || e.data.tag = "a" then
      ⟨0, 1, 0, 0⟩
    else if e.data.role = some "textbox" || e.data.role = some "searchbox" ||
        e.data.role = some "combobox" || e.data.tag = "input" ||
        e.data.tag = "textarea" || e.data.tag = "select" then
      ⟨0, 0, 1, 0⟩
    else ⟨0, 0, 0, 1⟩
  else ⟨0, 0, 0, 0⟩

/-- The explicit work stack of countInteractiveDescendants: pop a node,
add its contribution, push its children (the source pushes them reversed
so that they pop in document order). -/
def cidLoop : List Elem → Counts → Counts
  | [], acc => acc
  | e :: rest, acc => cidLoop (e.children ++ rest) (acc.add (cidContrib e))
termination_by l _ => sizeList l
decreasing_by
  cases e with
  | node d c =>
    simp only [Elem.children, sizeList, sizeList_append, Elem.size]
    omega

/-- countInteractiveDescendants from traverse.ts (the starting stack
holds the element itself). -/
def countInteractiveDescendants (e : Elem) : Counts :=
  cidLoop [e] ⟨0, 0, 0, 0⟩

/-! ## Pattern filter (utils/filter.ts) -/

/-- GrepOptions from filter.ts with the source defaults. -/
structure GrepOptions where
  pattern : String
  ignoreCase : Bool := false
  invert : Bool := false
  fixedStrings : Bool := false

/-- A grep argument is a plain pattern string or a full options object. -/
def GrepArg := Sum String GrepOptions

/-- Normalization done at the top of grepLines and grepItems: a bare
string becomes an options object with the defaults. -/
def normalizeGrep : GrepArg → GrepOptions
  | .inl s => { pattern := s }
  | .inr o => o

/-- The regex metacharacters escaped in fixed-strings mode (the character
class in the source replace call). -/
def escChars : List Char :=
  ['.', '*', '+', '?', '^', '$', '\x7b', '\x7d', '(', ')', '|', '[', ']', '\\']

def escapeRegexChar (c : Char) : List Char :=
  if c ∈ escChars then ['\\', c] else [c]

/-- The fixed-strings escaping: prefix a backslash to each
metacharacter. -/
def escapeRegex (s : String) : String :=
  ⟨(s.data.map escapeRegexChar).flatten⟩

/-- Pattern source handed to the RegExp constructor. -/
def buildRegexSource (o : GrepOptions) : String :=
  if o.fixedStrings then escapeRegex o.pattern else o.pattern

/-- The host regex engine: given a pattern source and the
case-insensitivity flag, compilation either yields a matcher or fails
(the model of a throwing RegExp constructor).  The specification leaves
the pattern-matching primitive to the host language, so it is a
parameter of the filter model. -/
def RegexEngine := String → Bool → Option (String → Bool)

/-- Inversion applied after matching (grep -v). -/
def applyInvert (invert matched : Bool) : Bool :=
  if invert then !matched else matched

/-- The substring fallback used when compilation fails: plain
containment, case-folded when ignoreCase is set. -/
def fallbackMatch (pattern : String) (ignoreCase : Bool) (text : String) :
    Bool :=
  if ignoreCase then containsSub text.toLower pattern.toLower
  else containsSub text pattern

/-- GrepResult from filter.ts. -/
structure GrepResult (α : Type) where
  items : List α
  pattern : String
  matchCount : Nat
  totalCount : Nat

/-- grepLines from filter.ts. -/
def grepLines (re : RegexEngine) (lines : List String) (g : GrepArg) :
    GrepResult String :=
  let o := normalizeGrep g
  let filtered :=
    match re (buildRegexSource o) o.ignoreCase with
    | some test => lines.filter (fun l => applyInvert o.invert (test l))
    | none =>
      lines.filter (fun l =>
        applyInvert o.invert (fallbackMatch o.pattern o.ignoreCase l))
  ⟨filtered, o.pattern, filtered.length, lines.length⟩

/-- grepItems from filter.ts. -/
def grepItems {α : Type} (re : RegexEngine) (items : List α) (g : GrepArg)
    (extractor : α → String) : GrepResult α :=
  let o := normalizeGrep g
  let filtered :=
    match re (buildRegexSource o) o.ignoreCase with
    | some test =>
      items.filter (fun it => applyInvert o.invert (test (extractor it)))
    | none =>
      items.filter (fun it =>
        applyInvert o.invert (fallbackMatch o.pattern o.ignoreCase (extractor it)))
  ⟨filtered, o.pattern, filtered.length, items.length⟩

/-! ## Page info and output assembly (format.ts) -/

/-- The document-level facts consumed by the renderers. -/
structure Doc where
  url : String := ""
  title : String := ""
  viewportWidth : Nat := 1024
  viewportHeight : Nat := 768
  readyState : String := "complete"
  body : Elem

/-- PageInfo from format.ts. -/
structure PageInfo where
  url : String
  title : String
  viewportWidth : Nat
  viewportHeight : Nat

/-- getPageInfo from format.ts: empty url and title fall back to
about:blank and Untitled (JavaScript falsy-or). -/
def getPageInfo (doc : Doc) : PageInfo :=
  { url := if doc.url = "" then "about:blank" else doc.url
    title := if doc.title = "" then "Untitled" else doc.title
    viewportWidth := doc.viewportWidth
    viewportHeight := doc.viewportHeight }

/-- buildPageHeader from format.ts. -/
def buildPageHeader (info : PageInfo) : String :=
  let url := truncateByType (if info.url = "" then "about:blank" else info.url)
    .URL
  let title := truncateByType (if info.title = "" then "Untitled"
    else info.title) .TEXT_SHORT
  "PAGE: " ++ url ++ " | " ++ title ++ " | viewport=" ++
    natToString info.viewportWidth ++ "x" ++ natToString info.viewportHeight

/-- buildSnapshotOutput from format.ts: page header, snapshot header, a
blank line, then the content lines, joined with newlines. -/
def buildSnapshotOutput (pageHeader snapshotHeader : String)
    (lines : List String) : String :=
  String.intercalate "\n" ([pageHeader, snapshotHeader, ""] ++ lines)

/-- Shorthand for the page header of a document. -/
def pageHeaderOf (doc : Doc) : String :=
  buildPageHeader (getPageInfo doc)

/-! ## Snapshot result model (types.ts) -/

inductive Quality where
  | high | medium | low
deriving DecidableEq

/-- RefInfo from types.ts. -/
structure RefInfo where
  selector : String
  role : String
  name : Option String := none
  bbox : Option (Int × Int × Int × Int) := none
  inViewport : Option Bool := none

/-- SnapshotMetadata from types.ts (optional fields kept as options;
warnings empty when the source leaves the field undefined). -/
structure SMetadata where
  totalInteractiveElements : Option Nat := none
  capturedElements : Nat := 0
  quality : Quality := .high
  warnings : List String := []

/-- SnapshotData: the refs object is modelled as an association list in
insertion order, so that both the key set and the emission order are
visible to the theorems. -/
structure SnapshotData where
  tree : String
  refs : List (String × RefInfo)
  metadata : SMetadata

/-- Reference token generation shared by the ref-emitting renderers. -/
def refToken (n : Nat) : String :=
  "@ref:" ++ natToString n

theorem refToken_injective : Function.Injective refToken := by
  intro a b h
  unfold refToken at h
  have : natToString a = natToString b := by
    have hd := congrArg String.data h
    simp only [String.data_append] at hd
    have := List.append_cancel_left hd
    exact congrArg String.mk this
  exact natToString_injective this

/-- firstWord: the model of role.split(one space)[0], used for the role
stored in a RefInfo. -/
def firstWord (s : String) : String :=
  ⟨s.data.takeWhile (fun c => c ≠ ' ')⟩

/-! ## snapshotHead (head.ts) -/

/-- The interactive CSS selector of head.ts: button, a[href], input,
textarea, select, [role=button], [tabindex] not -1. -/
def matchesInteractiveSel (e : Elem) : Bool :=
  e.data.tag = "button" || (e.data.tag = "a" && e.data.href) ||
  e.data.tag = "input" || e.data.tag = "textarea" || e.data.tag = "select" ||
  e.data.roleAttr = some "button" ||
  (match e.data.tabindex with
   | some t => t != -1
   | none => false)

/-- snapshotHead from head.ts: page metadata lines, no refs, quality
always high.  querySelectorAll matches proper descendants of the root. -/
def snapshotHead (doc : Doc) : SnapshotData :=
  let vw := doc.viewportWidth
  let vh := doc.viewportHeight
  let allCount := doc.body.descList.length
  let interCount := doc.body.descList.countP matchesInteractiveSel
  let status :=
    if vw * vh = 0 then "loading"
    else if interCount = 0 then "empty"
    else if doc.readyState = "complete" then "ready"
    else "interactive"
  let tree := String.intercalate "\n"
    [ "URL: " ++ (if doc.url = "" then "about:blank" else doc.url),
      "TITLE: " ++ (if doc.title = "" then "Untitled" else doc.title),
      "VIEWPORT: " ++ natToString vw ++ "x" ++ natToString vh,
      "STATUS: " ++ status,
      "ELEMENTS: total=" ++ natToString allCount ++ " interactive=" ++
        natToString interCount,
      "READY_STATE: " ++ doc.readyState ]
  { tree := tree
    refs := []
    metadata :=
      { totalInteractiveElements := some interCount
        capturedElements := 0
        quality := .high } }

/-! ## snapshotInteractive (interactive.ts) -/

/-- InteractiveOptions from types.ts. -/
structure InteractiveOptions where
  maxDepth : Nat := 50
  includeHidden : Bool := false
  grep : Option GrepArg := none

/-- Accumulator of the per-element loop of snapshotInteractive. -/
structure IState where
  total : Nat := 0
  captured : Nat := 0
  ctr : Nat := 0
  lines : List String := []
  refs : List (String × RefInfo) := []

/-- The state flags rendered as a parenthesized suffix. -/
def stateFlags (e : Elem) : List String :=
  (if e.data.disabled then ["disabled"] else []) ++
  (if e.data.checked then ["checked"] else []) ++
  (if e.data.expanded then ["expanded"] else []) ++
  (if e.data.selected then ["selected"] else [])

/-- One iteration of the element loop in snapshotInteractive: count every
interactive element, then render only interactive elements that have a
role, assigning the next reference token. -/
def iStep (st : IState) (e : Elem) : IState :=
  let total := if e.data.interactive then st.total + 1 else st.total
  if !e.data.interactive then { st with total := total }
  else
    match e.data.role with
    | none => { st with total := total }
    | some r =>
      let name := e.data.name
      let ref := refToken st.ctr
      let line1 :=
        if name ≠ "" then
          r.toUpper ++ " \"" ++ truncateByType name .ELEMENT_NAME ++ "\""
        else r.toUpper
      let info : RefInfo :=
        match e.data.bbox with
        | some b =>
          { selector := e.data.selector
            role := firstWord r
            name := if name = "" then none else some name
            bbox := some b
            inViewport := some e.data.inViewport }
        | none =>
          { selector := e.data.simpleSelector
            role := firstWord r
            name := if name = "" then none else some name }
      let line3 := line1 ++ " " ++ ref ++ e.data.inputAttrs
      let states := stateFlags e
      let line4 :=
        if states ≠ [] then
          line3 ++ " (" ++ String.intercalate ", " states ++ ")"
        else line3
      let line5 := line4 ++ " " ++ e.data.xpath
      { total := total
        captured := st.captured + 1
        ctr := st.ctr + 1
        lines := st.lines ++ [line5]
        refs := st.refs ++ [(ref, info)] }

/-- The element loop of snapshotInteractive over the collected
traversal. -/
def iFold (es : List Elem) (st : IState) : IState :=
  es.foldl iStep st

/-- snapshotInteractive from interactive.ts. -/
def snapshotInteractive (re : RegexEngine) (doc : Doc)
    (o : InteractiveOptions) : SnapshotData :=
  let elements := collectElements doc.body
    { maxDepth := o.maxDepth, includeHidden := o.includeHidden,
      checkAncestors := false }
  let st := iFold elements {}
  let pageHeader := pageHeaderOf doc
  let grepped :=
    match o.grep with
    | some g =>
      let r := grepLines re st.lines g
      (r.items, some (r.pattern, r.matchCount))
    | none => (st.lines, none)
  let header0 := "SNAPSHOT: elements=" ++ natToString elements.length ++
    " refs=" ++ natToString st.captured
  let header :=
    match grepped.2 with
    | some pm => header0 ++ " grep=" ++ pm.1 ++ " matches=" ++
        natToString pm.2
    | none => header0
  let output := buildSnapshotOutput pageHeader header grepped.1
  let viewportArea := doc.viewportWidth * doc.viewportHeight
  let warnings :=
    (if viewportArea = 0 then
      ["Viewport not initialized (0x0) - page may be loading or redirecting"]
     else []) ++
    (if st.captured = 0 && st.total = 0 && elements.length < 10 then
      ["Page appears to be empty or transitional - wait for content to load"]
     else []) ++
    (if containsSub doc.url "RotateCookies" ||
        containsSub doc.url "ServiceLogin" ||
        containsSub doc.url "/blank" then
      ["Detected intermediate/redirect page - snapshot may not contain meaningful content"]
     else [])
  { tree := output
    refs := st.refs
    metadata :=
      { totalInteractiveElements := some st.total
        capturedElements := st.captured
        quality :=
          if viewportArea = 0 || st.captured = 0 then .low
          else if 2 * st.captured < st.total then .medium
          else .high
        warnings := warnings } }

/-! ## snapshotAll (all.ts) -/

/-- AllOptions from types.ts. -/
structure AllOptions where
  maxDepth : Nat := 50
  includeHidden : Bool := false

/-- Accumulator of the per-element loop of snapshotAll. -/
structure AState where
  interactiveCount : Nat := 0
  ctr : Nat := 0
  lines : List String := []
  refs : List (String × RefInfo) := []

/-- One iteration of the element loop in snapshotAll: every element with
a role gets a reference; an interactive element without a role is kept
but its line stays the empty string. -/
def aStep (st : AState) (e : Elem) : AState :=
  let ic := if e.data.interactive then st.interactiveCount + 1
    else st.interactiveCount
  if e.data.role.isNone && !e.data.interactive then
    { st with interactiveCount := ic }
  else
    match e.data.role with
    | some r =>
      let name := e.data.name
      let ref := refToken st.ctr
      let line1 :=
        if name ≠ "" then
          r.toUpper ++ " \"" ++ truncateByType name .ELEMENT_NAME ++ "\""
        else r.toUpper
      let info : RefInfo :=
        match e.data.bbox with
        | some b =>
          { selector := e.data.selector
            role := firstWord r
            name := if name = "" then none else some name
            bbox := some b }
        | none =>
          { selector := e.data.selector
            role := firstWord r
            name := if name = "" then none else some name }
      let line := line1 ++ " " ++ ref ++ " " ++ e.data.xpath
      { interactiveCount := ic
        ctr := st.ctr + 1
        lines := st.lines ++ [line]
        refs := st.refs ++ [(ref, info)] }
    | none =>
      { st with interactiveCount := ic, lines := st.lines ++ [""] }

/-- The element loop of snapshotAll. -/
def aFold (es : List Elem) (st : AState) : AState :=
  es.foldl aStep st

/-- snapshotAll from all.ts. -/
def snapshotAll (doc : Doc) (o : AllOptions) : SnapshotData :=
  let elements := collectElements doc.body
    { maxDepth := o.maxDepth, includeHidden := o.includeHidden,
      checkAncestors := false }
  let st := aFold elements {}
  let pageHeader := pageHeaderOf doc
  let subheader := "ALL: elements=" ++ natToString st.lines.length ++
    " refs=" ++ natToString st.ctr
  let tree := buildSnapshotOutput pageHeader subheader st.lines
  { tree := tree
    refs := st.refs
    metadata :=
      { totalInteractiveElements := some st.interactiveCount
        capturedElements := st.lines.length
        quality := .high } }

/-! ## snapshotStructure (structure.ts) -/

/-- StructureOptions from types.ts. -/
structure StructureOptions where
  maxDepth : Nat := 50
  includeHidden : Bool := false
  maxLines : Nat := 100

/-- The landmark role set declared locally in snapshotStructure. -/
def structLandmarkRoles : List String :=
  ["banner", "navigation", "main", "complementary", "contentinfo",
   "search", "region", "form"]

/-- Landmark test of snapshotStructure (role present and in the set). -/
def sIsLandmark (e : Elem) : Bool :=
  match e.data.role with
  | some r => r ∈ structLandmarkRoles
  | none => false

/-- Heading test of snapshotStructure (role heading or tag h1..h6). -/
def sIsHeading (e : Elem) : Bool :=
  e.data.role = some "heading" ||
    e.data.tag ∈ ["h1", "h2", "h3", "h4", "h5", "h6"]

/-- Form test of snapshotStructure. -/
def sIsForm (e : Elem) : Bool :=
  e.data.role = some "form" || e.data.tag = "form"

/-- buildInteractionSummary from format.ts. -/
def buildInteractionSummary (c : Counts) : String :=
  let total := c.buttons + c.links + c.inputs + c.other
  if total = 0 then ""
  else
    let parts :=
      (if c.buttons > 0 then
        [natToString c.buttons ++ " button" ++
          (if c.buttons > 1 then "s" else "")] else []) ++
      (if c.links > 0 then
        [natToString c.links ++ " link" ++
          (if c.links > 1 then "s" else "")] else []) ++
      (if c.inputs > 0 then
        [natToString c.inputs ++ " input" ++
          (if c.inputs > 1 then "s" else "")] else []) ++
      (if c.other > 0 then [natToString c.other ++ " other"] else [])
    "[" ++ String.intercalate ", " parts ++ "]"

/-- The line rendered for a shown structure element. -/
def structLine (e : Elem) (indent : String) : String :=
  let roleUpper := (match e.data.role with
    | some r => r
    | none => e.data.tag).toUpper
  let line1 := indent ++ roleUpper
  let line2 :=
    if e.data.name ≠ "" then
      line1 ++ " \"" ++ truncateByType e.data.name .ELEMENT_NAME ++ "\""
    else line1
  let line3 :=
    if sIsLandmark e || sIsForm e then
      let summary := buildInteractionSummary (countInteractiveDescendants e)
      if summary ≠ "" then line2 ++ " " ++ summary else line2
    else line2
  line3 ++ " " ++ e.data.xpath

theorem size_eq (e : Elem) : e.size = 1 + sizeList e.children := by
  cases e with
  | node d c => rfl

/-- The breadth-first loop of snapshotStructure.  The while condition
requires both a nonempty queue and a line count below the budget; a
popped element over the depth limit is dropped; a hidden non-semantic
element is skipped but its children are still enqueued; a visible
non-semantic element is likewise only searched through; shown elements
append a line and enqueue their children with a deeper indent.  The
inner budget check that sets the truncated flag is translated as
written in the source. -/
def structLoop (maxD maxLines : Nat) (includeHidden : Bool) :
    List (Elem × Nat × String) → Nat → List String → Bool →
    (List String × Bool)
  | [], _, lines, tr => (lines, tr)
  | (e, depth, ind) :: rest, count, lines, tr =>
    if ¬(count < maxLines) then (lines, tr)
    else if depth > maxD then structLoop maxD maxLines includeHidden rest
      count lines tr
    else
      let semantic := sIsLandmark e || sIsHeading e || sIsForm e
      if !includeHidden && !semantic && !e.data.visible then
        structLoop maxD maxLines includeHidden
          (rest ++ e.children.map (fun c => (c, depth + 1, ind)))
          count lines tr
      else if !(sIsLandmark e) && !(sIsHeading e) && !(sIsForm e) then
        structLoop maxD maxLines includeHidden
          (rest ++ e.children.map (fun c => (c, depth + 1, ind)))
          count lines tr
      else if count ≥ maxLines then (lines, true)
      else
        structLoop maxD maxLines includeHidden
          (rest ++ e.children.map (fun c => (c, depth + 1, ind ++ "  ")))
          (count + 1) (lines ++ [structLine e ind]) tr
termination_by q _ _ _ => sizeList (q.map (fun it => it.1))
decreasing_by
  all_goals
    simp only [List.map_cons, List.map_append, List.map_map, sizeList,
      sizeList_append]
  all_goals
    try rw [show ((fun (it : Elem × Nat × String) => it.1) ∘
      (fun c => (c, depth + 1, ind))) = (fun c => c) from rfl]
  all_goals
    try rw [show ((fun (it : Elem × Nat × String) => it.1) ∘
      (fun c => (c, depth + 1, ind ++ "  "))) = (fun c => c) from rfl]
  all_goals
    try simp only [List.map_id']
  all_goals
    have h1 := size_pos e
    have h2 := size_eq e
    omega

/-- snapshotStructure from structure.ts: breadth-first with a line
budget, empty ref table, capturedElements equal to the number of
rendered lines. -/
def snapshotStructure (doc : Doc) (o : StructureOptions) : SnapshotData :=
  let res := structLoop o.maxDepth o.maxLines o.includeHidden
    [(doc.body, 0, "")] 0 [] false
  let lines := res.1
  let truncated := res.2
  let pageHeader := pageHeaderOf doc
  let totalElements := lines.length
  let snapshotHeader := "STRUCTURE: elements=" ++
    natToString totalElements ++ " maxLines=" ++ natToString o.maxLines ++
    (if truncated then " (truncated)" else "")
  { tree := buildSnapshotOutput pageHeader snapshotHeader lines
    refs := []
    metadata :=
      { totalInteractiveElements := none
        capturedElements := totalElements
        quality := if truncated then .medium else .high } }

/-! ## snapshotOutline (outline.ts) -/

/-- Modelled from the spec: LANDMARK_ROLES is exported by
utils/inspect.ts, which is not among the provided sources.  The
specification glossary defines a landmark as a structurally significant
region role (main, navigation, banner, etc.), matching the landmark set
declared locally by snapshotStructure. -/
def LANDMARK_ROLES : List String :=
  ["banner", "navigation", "main", "complementary", "contentinfo",
   "search", "region"]

/-- Role with the JavaScript null-to-empty coercion (role or empty
string); the empty string is neither a landmark nor a heading role, so
truthiness guards of the source collapse into plain membership tests. -/
def oRole (e : Elem) : String :=
  e.data.role.getD ""

def oIsLandmark (e : Elem) : Bool :=
  oRole e ∈ LANDMARK_ROLES

def oIsHeading (e : Elem) : Bool :=
  (oRole e).startsWith "heading"

/-- Truthiness of getAttribute aria-label (present and nonempty). -/
def ariaLabelTruthy (e : Elem) : Bool :=
  match e.data.ariaLabel with
  | some s => s ≠ ""
  | none => false

/-- countElements-style queries used by buildOutlineMetadata. -/
def linksIn (e : Elem) : Nat :=
  e.countDesc (fun x => x.data.tag = "a" && x.data.href)

def paragraphsIn (e : Elem) : Nat :=
  e.countSelfDesc (fun x => x.data.tag = "p")

def listItemsIn (e : Elem) : Nat :=
  e.countSelfDesc (fun x => x.data.tag = "li")

def codeBlocksIn (e : Elem) : Nat :=
  e.countDesc (fun x => x.data.tag = "pre" || x.data.tag = "code")

/-- buildOutlineMetadata from format.ts. -/
def buildOutlineMetadata (e : Elem) : String :=
  let wordCount := countWords e.textContent
  let parts :=
    (if wordCount > 0 then [natToString wordCount ++ " words"] else []) ++
    (if linksIn e > 0 then [natToString (linksIn e) ++ " links"] else []) ++
    (if paragraphsIn e > 1 then
      [natToString (paragraphsIn e) ++ " paragraphs"] else []) ++
    (if listItemsIn e > 0 then
      [natToString (listItemsIn e) ++ " items"] else []) ++
    (if codeBlocksIn e > 0 then
      [natToString (codeBlocksIn e) ++ " code"] else [])
  if parts ≠ [] then "[" ++ String.intercalate ", " parts ++ "]" else ""

/-- Word characters of the regex class used by detectCodeLanguage. -/
def wordChars (l : List Char) : List Char :=
  l.takeWhile (fun c => c.isAlphanum || c = '_')

/-- Scanner for the language or lang class-name pattern of
detectCodeLanguage (case-insensitive, captured group lower-cased). -/
def scanLang : List Char → Option String
  | [] => none
  | c :: cs =>
    let lower := (c :: cs).map Char.toLower
    if "language-".data.isPrefixOf lower then
      let g := wordChars ((c :: cs).drop 9)
      if g ≠ [] then some ⟨g.map Char.toLower⟩ else scanLang cs
    else if "lang-".data.isPrefixOf lower then
      let g := wordChars ((c :: cs).drop 5)
      if g ≠ [] then some ⟨g.map Char.toLower⟩ else scanLang cs
    else scanLang cs

/-- detectCodeLanguage from filter.ts.  The ancestor branch through
closest never fires at the call sites, because the renderers call it on
pre elements only and closest matches the element itself first. -/
def detectCodeLanguage (e : Elem) : Option String :=
  scanLang e.data.className.data

/-- Upper-cased second character of the tag name (tagName[1]), rendered
as a one-character string for the heading level. -/
def tagCharAt1 (e : Elem) : String :=
  ⟨(e.data.tag.toUpper.data.drop 1).take 1⟩

/-- Indentation string: two spaces per level. -/
def indentStr (n : Nat) : String :=
  String.join (List.replicate n "  ")

/-- OutlineOptions from types.ts. -/
structure OutlineOptions where
  maxDepth : Nat := 50
  includeHidden : Bool := false
  grep : Option GrepArg := none

/-- Accumulator of the recursive outline builder. -/
structure OState where
  ctr : Nat := 0
  refs : List (String × RefInfo) := []
  lines : List String := []
  landmarkCount : Nat := 0
  sectionCount : Nat := 0
  headingCount : Nat := 0

/-- Classification step of buildOutline for one element, returning
whether the element is included, its rendered line, and the updated
state (reference and section counters). -/
def outBranch (e : Elem) (indent : Nat) (st : OState) :
    Bool × String × OState :=
  let ind := indentStr indent
  if oIsLandmark e then
    let roleUpper := (oRole e).toUpper
    let name := e.data.sectionName
    let metadata := buildOutlineMetadata e
    let ref := refToken st.ctr
    let info : RefInfo :=
      { selector := e.data.selector
        role := oRole e
        name := if name = "" then none else some name }
    let line := ind ++ roleUpper ++
      (if name ≠ "" then
        " \"" ++ truncateByType name .ELEMENT_NAME ++ "\"" else "") ++
      " " ++ ref ++
      (if metadata ≠ "" then " " ++ metadata else "") ++
      " " ++ e.data.xpath
    (true, line,
      { st with
        ctr := st.ctr + 1
        refs := st.refs ++ [(ref, info)]
        sectionCount := st.sectionCount + 1 })
  else if oIsHeading e then
    let text := getCleanText e.textContent (some 60)
    let line := ind ++ "HEADING level=" ++ tagCharAt1 e ++
      (if text ≠ "" then " \"" ++ text ++ "\"" else "") ++
      " " ++ e.data.xpath
    (true, line, st)
  else if e.data.tag = "article" ||
      (e.data.tag = "section" && (e.data.idAttr ≠ "" || ariaLabelTruthy e))
  then
    let roleUpper := if e.data.tag = "article" then "ARTICLE" else "REGION"
    let name := e.data.sectionName
    let metadata := buildOutlineMetadata e
    let ref := refToken st.ctr
    let info : RefInfo :=
      { selector := e.data.selector
        role := roleUpper.toLower
        name := if name = "" then none else some name }
    let line := ind ++ roleUpper ++
      (if name ≠ "" then
        " \"" ++ truncateByType name .ELEMENT_NAME ++ "\"" else "") ++
      " " ++ ref ++
      (if metadata ≠ "" then " " ++ metadata else "") ++
      " " ++ e.data.xpath
    (true, line,
      { st with
        ctr := st.ctr + 1
        refs := st.refs ++ [(ref, info)]
        sectionCount := st.sectionCount + 1 })
  else if e.data.tag = "div" && (e.data.idAttr ≠ "" || e.data.semanticCls)
  then
    if countWords e.textContent > 50 then
      let name := e.data.sectionName
      let metadata := buildOutlineMetadata e
      let ref := refToken st.ctr
      let info : RefInfo :=
        { selector := e.data.selector
          role := "region"
          name := if name = "" then none else some name }
      let line := ind ++ "REGION" ++
        (if name ≠ "" then
          " \"" ++ truncateByType name .ELEMENT_NAME ++ "\"" else "") ++
        " " ++ ref ++
        (if metadata ≠ "" then " " ++ metadata else "") ++
        " " ++ e.data.xpath
      (true, line,
        { st with
          ctr := st.ctr + 1
          refs := st.refs ++ [(ref, info)]
          sectionCount := st.sectionCount + 1 })
    else (false, "", st)
  else if e.data.tag = "ul" || e.data.tag = "ol" then
    let items := e.children.countP (fun x => x.data.tag = "li")
    if items > 0 then
      (true, ind ++ "LIST [" ++ natToString items ++ " items] " ++
        e.data.xpath, st)
    else (false, "", st)
  else if e.data.tag = "pre" then
    let lineCount := e.textContent.data.count '\n' + 1
    let line := ind ++ "CODE" ++
      (match detectCodeLanguage e with
       | some lang => " [" ++ lang ++ "]"
       | none => "") ++
      " [" ++ natToString lineCount ++ " lines]" ++
      " " ++ e.data.xpath
    (true, line, st)
  else (false, "", st)

/-- The statistics update at the top of the buildOutline body. -/
def outStats (e : Elem) (st : OState) : OState :=
  { st with
    headingCount := st.headingCount + (if oIsHeading e then 1 else 0)
    landmarkCount := st.landmarkCount + (if oIsLandmark e then 1 else 0) }

/-- The line push guarded by shouldInclude and a nonempty line. -/
def outPush (inc : Bool) (line : String) (st : OState) : OState :=
  if inc && line ≠ "" then { st with lines := st.lines ++ [line] }
  else st

mutual
/-- buildOutline from outline.ts: depth and visibility gates, statistics
tracking, branch classification, then recursion into children with an
indent increase only for included elements. -/
def outGo (maxD : Nat) (includeHidden : Bool) :
    Elem → Nat → Nat → OState → OState
  | .node d c, depth, indent, st =>
    let e := Elem.node d c
    if depth > maxD then st
    else if !includeHidden && !e.data.visible then st
    else
      let br := outBranch e indent (outStats e st)
      let nextIndent := if br.1 then indent + 1 else indent
      outGoL maxD includeHidden c (depth + 1) nextIndent
        (outPush br.1 br.2.1 br.2.2)
def outGoL (maxD : Nat) (includeHidden : Bool) :
    List Elem → Nat → Nat → OState → OState
  | [], _, _, st => st
  | e :: es, depth, indent, st =>
    outGoL maxD includeHidden es depth indent
      (outGo maxD includeHidden e depth indent st)
end

/-- snapshotOutline from outline.ts. -/
def snapshotOutline (re : RegexEngine) (doc : Doc) (o : OutlineOptions) :
    SnapshotData :=
  let st := outGo o.maxDepth o.includeHidden doc.body 0 0 {}
  let totalWords := countWords doc.body.textContent
  let grepped :=
    match o.grep with
    | some g =>
      let r := grepLines re st.lines g
      (r.items, some (r.pattern, r.matchCount))
    | none => (st.lines, none)
  let pageHeader := pageHeaderOf doc
  let header0 := "OUTLINE: landmarks=" ++ natToString st.landmarkCount ++
    " sections=" ++ natToString st.sectionCount ++
    " headings=" ++ natToString st.headingCount ++
    " words=" ++ natToString totalWords
  let header :=
    match grepped.2 with
    | some pm => header0 ++ " grep=" ++ pm.1 ++ " matches=" ++
        natToString pm.2
    | none => header0
  { tree := buildSnapshotOutput pageHeader header grepped.1
    refs := st.refs
    metadata :=
      { totalInteractiveElements := some st.sectionCount
        capturedElements := st.ctr
        quality := .high } }

/-! ## snapshotContent (content.ts) -/

/-- ContentOptions from types.ts (the fields read by snapshotContent). -/
structure ContentOptions where
  maxDepth : Nat := 50
  includeHidden : Bool := false
  grep : Option GrepArg := none
  maxLength : Nat := 2000

/-- Heading tags. -/
def headingTags : List String :=
  ["h1", "h2", "h3", "h4", "h5", "h6"]

/-- The section test of collectSections in content.ts: landmarks and
articles, named sections, and semantic divs with more than 30 words. -/
def isSectionElem (e : Elem) : Bool :=
  (match e.data.role with
   | some r => r ∈ LANDMARK_ROLES || r = "article"
   | none => false) ||
  (e.data.tag = "section" && (e.data.idAttr ≠ "" || ariaLabelTruthy e)) ||
  (e.data.tag = "div" && (e.data.idAttr ≠ "" || e.data.semanticCls) &&
    countWords e.textContent > 30)

/-- A collected content section with its search data. -/
structure ContentSection where
  xpath : String
  elem : Elem
  heading : Option String
  searchText : String

/-- Modelled from the spec: buildElementSearchData is imported from
utils/filter.ts but absent from the provided sources.  Per the
specification the searchable record holds role, heading text, semantic
path and full text; the record is modelled as their concatenation,
which is what the element-level pattern filter matches against. -/
def buildSearchText (e : Elem) (role : String) (headingText : Option String)
    (xpath : String) : String :=
  role ++ " " ++ headingText.getD "" ++ " " ++ xpath ++ " " ++
    getCleanText e.textContent none

/-- Section record built for one section element. -/
def mkContentSection (e : Elem) : ContentSection :=
  let heading := e.descList.find? (fun x => x.data.tag ∈ headingTags)
  let headingText := heading.map (fun h => getCleanText h.textContent
    (some 100))
  { xpath := e.data.xpath
    elem := e
    heading := headingText
    searchText := buildSearchText e (e.data.role.getD "section")
      headingText e.data.xpath }

mutual
/-- collectSections from content.ts: depth and visibility gates, then a
pre-order collection of section records. -/
def collectSections (maxD : Nat) (includeHidden : Bool) :
    Elem → Nat → List ContentSection
  | .node d c, depth =>
    let e := Elem.node d c
    if depth > maxD then []
    else if !includeHidden && !e.data.visible then []
    else
      (if isSectionElem e then [mkContentSection e] else []) ++
        collectSectionsL maxD includeHidden c (depth + 1)
def collectSectionsL (maxD : Nat) (includeHidden : Bool) :
    List Elem → Nat → List ContentSection
  | [], _ => []
  | e :: es, depth =>
    collectSections maxD includeHidden e depth ++
      collectSectionsL maxD includeHidden es depth
end

/-- getListItems from filter.ts: up to maxItems list items, cleaned to
100 characters, empty ones dropped after the cut. -/
def getListItems (e : Elem) (maxItems : Nat) : List String :=
  (((e.descList.filter (fun x => x.data.tag = "li")).take maxItems).map
    (fun li => getCleanText li.textContent (some 100))).filter (· ≠ "")

/-- buildListOutput from format.ts. -/
def buildListOutput (items : List String) (indent : String) : List String :=
  (indent ++ "LIST [" ++ natToString items.length ++ " items]") ::
    items.map (fun it => indent ++ "  - \"" ++ it ++ "\"")

/-- buildCodeBlockOutput from format.ts. -/
def buildCodeBlockOutput (e : Elem) (indent : String) : List String :=
  let lang := detectCodeLanguage e
  let code : String := ⟨trimWs e.textContent.data⟩
  let codeLines := code.splitOn "\n"
  let header := indent ++ "CODE" ++
    (match lang with
     | some l => " [" ++ l ++ ", " ++ natToString codeLines.length ++
         " lines]"
     | none => " [" ++ natToString codeLines.length ++ " lines]")
  header :: (codeLines.take 5).map (fun cl => indent ++ "  " ++ cl) ++
    (if codeLines.length > 5 then [indent ++ "  ..."] else [])

/-- buildContentSectionHeader from format.ts. -/
def buildContentSectionHeader (xpath : String) (wordCount : Nat) : String :=
  "SECTION " ++ xpath ++ " [" ++ natToString wordCount ++ " words]"

mutual
/-- extractContentLines from content.ts: headings, paragraphs, lists and
code blocks become typed lines; other elements are recursed into with
the same indent. -/
def extractContentLines (maxLength : Nat) :
    Elem → String → List String
  | .node d c, indent =>
    let e := Elem.node d c
    if (e.data.role.getD "").startsWith "heading" then
      [indent ++ "HEADING level=" ++ tagCharAt1 e ++ " \"" ++
        getCleanText e.textContent (some 100) ++ "\""]
    else if e.data.tag = "p" then
      let text := getCleanText e.textContent (some maxLength)
      if text ≠ "" then [indent ++ "TEXT \"" ++ text ++ "\""] else []
    else if e.data.tag = "ul" || e.data.tag = "ol" then
      let items := getListItems e 10
      if items ≠ [] then buildListOutput items indent else []
    else if e.data.tag = "pre" then
      buildCodeBlockOutput e indent
    else
      extractContentLinesL maxLength c indent
def extractContentLinesL (maxLength : Nat) :
    List Elem → String → List String
  | [], _ => []
  | e :: es, indent =>
    extractContentLines maxLength e indent ++
      extractContentLinesL maxLength es indent
end

/-- snapshotContent from content.ts.  The element-level grep of the
source keeps the sections whose element is in the matched set; with the
grepItems model this is the direct filter of the section list.  The
refs object is never populated, and capturedElements is the size of
that empty object. -/
def snapshotContent (re : RegexEngine) (doc : Doc) (o : ContentOptions) :
    SnapshotData :=
  let sections := collectSections o.maxDepth o.includeHidden doc.body 0
  let grepped :=
    match o.grep with
    | some g =>
      let r := grepItems re sections g (fun s => s.searchText)
      (r.items, some (r.pattern, r.matchCount))
    | none => (sections, none)
  let filtered := grepped.1
  let pieces := filtered.map (fun s =>
    let words := countWords s.elem.textContent
    (buildContentSectionHeader s.xpath words ::
      extractContentLines o.maxLength s.elem "  " ++ [""], words))
  let lines := (pieces.map (fun p => p.1)).flatten
  let totalWords := (pieces.map (fun p => p.2)).sum
  let pageHeader := pageHeaderOf doc
  let header0 := "CONTENT: sections=" ++ natToString filtered.length ++
    " words=" ++ natToString totalWords
  let header :=
    match grepped.2 with
    | some pm => header0 ++ " grep=" ++ pm.1 ++ " matches=" ++
        natToString pm.2
    | none => header0
  let refs : List (String × RefInfo) := []
  { tree := buildSnapshotOutput pageHeader header lines
    refs := refs
    metadata :=
      { totalInteractiveElements := some filtered.length
        capturedElements := refs.length
        quality := .high } }

/-! ## Properties of the cleaning step -/

theorem collapse_ws_space (l : List Char) :
    ∀ c ∈ collapseWs l, isWsChar c = true → c = ' ' := by
  induction l using collapseWs.induct with
  | case1 => intro c hc; simp [collapseWs] at hc
  | case2 c cs h ih =>
    intro d hd hw
    rw [collapseWs] at hd
    simp [h] at hd
    rcases hd with h1 | h2
    · exact h1
    · exact ih d h2 hw
  | case3 c cs h ih =>
    intro d hd hw
    rw [collapseWs] at hd
    simp [h] at hd
    rcases hd with h1 | h2
    · subst h1; simp [hw] at h
    · exact ih d h2 hw

theorem trimWs_eq_rdropWhile (l : List Char) :
    trimWs l = List.rdropWhile isWsChar (l.dropWhile isWsChar) := rfl

theorem trimWs_infix_of (l : List Char) : trimWs l <:+: l := by
  rw [trimWs_eq_rdropWhile]
  exact (( List.rdropWhile_prefix _ _).isInfix).trans
    ((List.dropWhile_suffix _).isInfix)

theorem head_collapse_dropWhile (m : List Char) (b : Char)
    (hb : (collapseWs (m.dropWhile isWsChar)).head? = some b) :
    isWsChar b = false := by
  rcases hm : m.dropWhile isWsChar with _ | ⟨c, cs⟩
  · rw [hm] at hb; simp [collapseWs] at hb
  · have hne : m.dropWhile isWsChar ≠ [] := by rw [hm]; simp
    have hc0 := List.head_dropWhile_not isWsChar m hne
    have h1 : (m.dropWhile isWsChar).head? = some c := by rw [hm]; rfl
    have h2 := List.head?_eq_head hne
    rw [h1] at h2
    have hc : isWsChar c = false := by
      injection h2 with h2'
      rw [h2']
      exact hc0
    rw [hm, collapseWs] at hb
    simp [hc] at hb
    subst hb
    exact hc

theorem collapse_chain (l : List Char) :
    List.Chain' (fun a b => ¬(a = ' ' ∧ b = ' ')) (collapseWs l) := by
  induction l using collapseWs.induct with
  | case1 => simp [collapseWs]
  | case2 c cs h ih =>
    rw [collapseWs, if_pos h]
    rw [List.chain'_cons']
    refine ⟨?_, ih⟩
    intro b hb
    have := head_collapse_dropWhile cs b hb
    rintro ⟨-, rfl⟩
    simp [isWsChar] at this
  | case3 c cs h ih =>
    rw [collapseWs, if_neg h]
    rw [List.chain'_cons']
    refine ⟨?_, ih⟩
    intro b _
    rintro ⟨rfl, -⟩
    simp [isWsChar] at h

theorem cleanStr_all_space (s : String) :
    ∀ c ∈ (cleanStr s).data, isWsChar c = true → c = ' ' := by
  intro c hc hw
  have hmem : c ∈ collapseWs s.data := (trimWs_infix_of (collapseWs s.data)).subset hc
  exact collapse_ws_space s.data c hmem hw

theorem cleanStr_head (s : String) :
    ((cleanStr s).data.head?.elim True (fun c => isWsChar c = false)) := by
  rcases hh : (cleanStr s).data.head? with _ | ⟨a⟩
  · exact trivial
  · simp only [Option.elim]
    have hne : (cleanStr s).data ≠ [] := by
      intro hnil; rw [hnil] at hh; simp at hh
    have hform : (cleanStr s).data
        = List.rdropWhile isWsChar ((collapseWs s.data).dropWhile isWsChar) :=
      trimWs_eq_rdropWhile _
    obtain ⟨t, ht⟩ := List.rdropWhile_prefix isWsChar
      ((collapseWs s.data).dropWhile isWsChar)
    rw [hform] at hh hne
    have hXhead : ((collapseWs s.data).dropWhile isWsChar).head? = some a := by
      rw [← ht]
      rwa [List.head?_append_of_ne_nil _ hne]
    have hXne : (collapseWs s.data).dropWhile isWsChar ≠ [] := by
      intro hX
      rw [hX] at hXhead
      simp at hXhead
    have hc0 := List.head_dropWhile_not isWsChar (collapseWs s.data) hXne
    have h2 := List.head?_eq_head hXne
    rw [hXhead] at h2
    injection h2 with h2'
    rw [h2']
    exact hc0

theorem cleanStr_last (s : String) :
    ((cleanStr s).data.getLast?.elim True (fun c => isWsChar c = false)) := by
  rcases hh : (cleanStr s).data.getLast? with _ | ⟨a⟩
  · exact trivial
  · simp only [Option.elim]
    have hne : (cleanStr s).data ≠ [] := by
      intro hnil; rw [hnil] at hh; simp at hh
    have hform : (cleanStr s).data
        = List.rdropWhile isWsChar ((collapseWs s.data).dropWhile isWsChar) :=
      trimWs_eq_rdropWhile _
    have hne2 : List.rdropWhile isWsChar
        ((collapseWs s.data).dropWhile isWsChar) ≠ [] := by
      rw [← hform]; exact hne
    have hL := List.rdropWhile_last_not isWsChar
      ((collapseWs s.data).dropWhile isWsChar) hne2
    have h2 := List.getLast?_eq_getLast _ hne2
    have h3 : (cleanStr s).data.getLast?
        = (List.rdropWhile isWsChar
            ((collapseWs s.data).dropWhile isWsChar)).getLast? := by
      rw [hform]
    rw [h3, h2] at hh
    injection hh with hh'
    rw [← hh']
    rw [Bool.not_eq_true] at hL
    exact hL

theorem cleanStr_chain (s : String) :
    List.Chain' (fun a b => ¬(a = ' ' ∧ b = ' ')) (cleanStr s).data := by
  exact List.Chain'.infix (collapse_chain s.data)
    (trimWs_infix_of (collapseWs s.data))

/-- C10 — truncateByType first collapses whitespace runs to single
spaces and trims the ends, returns the cleaned string unchanged when it
is within the limit of the given type, else its first limit-minus-three
characters followed by three dots, and the result never exceeds the
limit. -/
theorem C10_truncateByType (s : String) (ty : TruncType) :
    (truncateByType s ty).data.length ≤ TRUNCATE_LIMITS ty ∧
    truncateByType s ty =
      (if (cleanStr s).data.length ≤ TRUNCATE_LIMITS ty then cleanStr s
       else ⟨(cleanStr s).data.take (TRUNCATE_LIMITS ty - 3)⟩ ++ "...") ∧
    (∀ c ∈ (cleanStr s).data, isWsChar c = true → c = ' ') ∧
    ((cleanStr s).data.head?.elim True (fun c => isWsChar c = false)) ∧
    ((cleanStr s).data.getLast?.elim True (fun c => isWsChar c = false)) ∧
    List.Chain' (fun a b => ¬(a = ' ' ∧ b = ' ')) (cleanStr s).data := by
  refine ⟨?_, rfl, cleanStr_all_space s, cleanStr_head s, cleanStr_last s,
    cleanStr_chain s⟩
  have hdef : truncateByType s ty =
      (if (cleanStr s).data.length ≤ TRUNCATE_LIMITS ty then cleanStr s
       else ⟨(cleanStr s).data.take (TRUNCATE_LIMITS ty - 3)⟩ ++ "...") := rfl
  rw [hdef]
  by_cases h : (cleanStr s).data.length ≤ TRUNCATE_LIMITS ty
  · rw [if_pos h]; exact h
  · rw [if_neg h, String.data_append]
    simp only [List.length_append, List.length_take]
    have h3 : 3 ≤ TRUNCATE_LIMITS ty := by cases ty <;> decide
    have hdots : ("..." : String).data.length = 3 := by decide
    rw [hdots]
    omega

/-- C8 — when regex compilation of the built pattern fails, both
grepLines and grepItems fall back to the same substring-containment
predicate (case-folded when ignoreCase is set, inverted after matching
when invert is set) instead of raising, and both still report the full
input count. -/
theorem C8_grep_fallback (re : RegexEngine) (lines : List String)
    {α : Type} (items : List α) (extractor : α → String) (g : GrepArg)
    (h : re (buildRegexSource (normalizeGrep g))
      (normalizeGrep g).ignoreCase = none) :
    (grepLines re lines g).items =
      lines.filter (fun l => applyInvert (normalizeGrep g).invert
        (fallbackMatch (normalizeGrep g).pattern
          (normalizeGrep g).ignoreCase l)) ∧
    (grepItems re items g extractor).items =
      items.filter (fun it => applyInvert (normalizeGrep g).invert
        (fallbackMatch (normalizeGrep g).pattern
          (normalizeGrep g).ignoreCase (extractor it))) ∧
    (grepLines re lines g).totalCount = lines.length ∧
    (grepItems re items g extractor).totalCount = items.length := by
  refine ⟨?_, ?_, rfl, rfl⟩
  · simp only [grepLines, h]
  · simp only [grepItems, h]

/-- Witness for C8 at a concrete failing engine and inputs. -/
theorem C8_grep_fallback_witness :
    ((fun (_ : String) (_ : Bool) => (none : Option (String → Bool)))
      (buildRegexSource (normalizeGrep (Sum.inl "a")))
      (normalizeGrep (Sum.inl "a")).ignoreCase = none) ∧
    ((grepLines (fun _ _ => none) ["ab", "zz"] (Sum.inl "a")).items =
      (["ab", "zz"] : List String).filter
        (fun l => applyInvert (normalizeGrep (Sum.inl "a")).invert
          (fallbackMatch (normalizeGrep (Sum.inl "a")).pattern
            (normalizeGrep (Sum.inl "a")).ignoreCase l)) ∧
     (grepItems (fun _ _ => none) ["ab", "zz"] (Sum.inl "a") id).items =
      (["ab", "zz"] : List String).filter
        (fun it => applyInvert (normalizeGrep (Sum.inl "a")).invert
          (fallbackMatch (normalizeGrep (Sum.inl "a")).pattern
            (normalizeGrep (Sum.inl "a")).ignoreCase (id it))) ∧
     (grepLines (fun _ _ => none) ["ab", "zz"] (Sum.inl "a")).totalCount =
      (["ab", "zz"] : List String).length ∧
     (grepItems (fun _ _ => none) ["ab", "zz"] (Sum.inl "a") id).totalCount =
      (["ab", "zz"] : List String).length) :=
  ⟨rfl, C8_grep_fallback (fun _ _ => none) ["ab", "zz"] ["ab", "zz"] id
    (Sum.inl "a") rfl⟩

/-! ## C6 — traversal depth bound and branch pruning -/

mutual
theorem travE_bound (o : TraverseOptions) :
    ∀ (e : Elem) (dep : Nat) (p : Elem × Nat),
      p ∈ travE o e dep → p.2 ≤ o.maxDepth
  | .node d c, dep, p, hp => by
    rw [travE] at hp
    by_cases h1 : dep > o.maxDepth
    · rw [if_pos h1] at hp; simp at hp
    · rw [if_neg h1] at hp
      by_cases h2 : (!o.includeHidden &&
          !(elemVis (.node d c) o.checkAncestors)) = true
      · rw [if_pos h2] at hp; simp at hp
      · rw [if_neg h2] at hp
        rcases List.mem_cons.mp hp with h3 | h3
        · subst h3; simpa using Nat.le_of_not_lt h1
        · exact travL_bound o c (dep + 1) p h3
theorem travL_bound (o : TraverseOptions) :
    ∀ (es : List Elem) (dep : Nat) (p : Elem × Nat),
      p ∈ travL o es dep → p.2 ≤ o.maxDepth
  | [], dep, p, hp => by rw [travL] at hp; simp at hp
  | e :: es, dep, p, hp => by
    rw [travL] at hp
    rcases List.mem_append.mp hp with h | h
    · exact travE_bound o e dep p h
    · exact travL_bound o es dep p h
end

mutual
theorem travE_vis (o : TraverseOptions) (hin : o.includeHidden = false) :
    ∀ (e : Elem) (dep : Nat) (p : Elem × Nat),
      p ∈ travE o e dep → elemVis p.1 o.checkAncestors = true
  | .node d c, dep, p, hp => by
    rw [travE] at hp
    by_cases h1 : dep > o.maxDepth
    · rw [if_pos h1] at hp; simp at hp
    · rw [if_neg h1] at hp
      by_cases h2 : (!o.includeHidden &&
          !(elemVis (.node d c) o.checkAncestors)) = true
      · rw [if_pos h2] at hp; simp at hp
      · rw [if_neg h2] at hp
        rcases List.mem_cons.mp hp with h3 | h3
        · subst h3
          simp [hin] at h2
          simpa using h2
        · exact travL_vis o hin c (dep + 1) p h3
theorem travL_vis (o : TraverseOptions) (hin : o.includeHidden = false) :
    ∀ (es : List Elem) (dep : Nat) (p : Elem × Nat),
      p ∈ travL o es dep → elemVis p.1 o.checkAncestors = true
  | [], dep, p, hp => by rw [travL] at hp; simp at hp
  | e :: es, dep, p, hp => by
    rw [travL] at hp
    rcases List.mem_append.mp hp with h | h
    · exact travE_vis o hin e dep p h
    · exact travL_vis o hin es dep p h
end

theorem travE_prune (o : TraverseOptions) (hin : o.includeHidden = false)
    (e : Elem) (dep : Nat) (hv : elemVis e o.checkAncestors = false) :
    travE o e dep = [] := by
  cases e with
  | node d c =>
    rw [travE]
    by_cases h1 : dep > o.maxDepth
    · rw [if_pos h1]
    · rw [if_neg h1, if_pos (by simp [hin, hv])]

/-- C6 — the depth-first traversal never yields a node at depth greater
than maxDepth; with includeHidden false it yields only nodes passing
the visibility check, and the walk of a branch rooted at an invisible
node is empty (the whole branch, visible descendants included, is
pruned). -/
theorem C6_traverse_pruning (root : Elem) (o : TraverseOptions) :
    (∀ p ∈ traverseElements root o, p.2 ≤ o.maxDepth) ∧
    (o.includeHidden = false →
      ∀ p ∈ traverseElements root o,
        elemVis p.1 o.checkAncestors = true) ∧
    (o.includeHidden = false →
      ∀ (e : Elem) (dep : Nat), elemVis e o.checkAncestors = false →
        (∀ pr ∈ travE o e dep, False) ∧
        ∀ x ∈ e.subtreeList, ∀ dp, (x, dp) ∉ travE o e dep) := by
  refine ⟨fun p hp => travE_bound o root 0 p hp,
    fun hin p hp => travE_vis o hin root 0 p hp,
    fun hin e dep hv => ?_⟩
  have hempty := travE_prune o hin e dep hv
  rw [hempty]
  exact ⟨fun pr hpr => by simp at hpr, fun x _ dp => by simp⟩

/-- A hidden branch used to witness C6: a hidden container with a
visible button inside. -/
def c6Hidden : Elem :=
  .node { tag := "div", visible := false }
    [.node { tag := "button", visible := true, interactive := true } []]

/-- The root tree for the C6 witness. -/
def c6Root : Elem :=
  .node { tag := "body", visible := true } [c6Hidden]

/-- Witness for C6 at a concrete tree and options. -/
theorem C6_traverse_pruning_witness :
    ((TraverseOptions.mk 50 false false).includeHidden = false) ∧
    (elemVis c6Hidden false = false) ∧
    ((c6Root, 0) ∈ traverseElements c6Root (TraverseOptions.mk 50 false false)) ∧
    (elemVis c6Root false = true) ∧
    (∀ x ∈ c6Hidden.subtreeList, ∀ dp,
      (x, dp) ∉ travE (TraverseOptions.mk 50 false false) c6Hidden 1) := by
  have hmem : (c6Root, 0) ∈
      traverseElements c6Root (TraverseOptions.mk 50 false false) := by
    simp [traverseElements, travE, travL, c6Root, c6Hidden, elemVis,
      Elem.data]
  refine ⟨rfl, rfl, hmem, ?_, ?_⟩
  · exact (C6_traverse_pruning c6Root (TraverseOptions.mk 50 false false)).2.1
      rfl (c6Root, 0) hmem
  · exact ((C6_traverse_pruning c6Root (TraverseOptions.mk 50 false false)).2.2
      rfl c6Hidden 1 rfl).2

/-! ## C7 — countInteractiveDescendants -/

theorem subtreeListL_append (a b : List Elem) :
    subtreeListL (a ++ b) = subtreeListL a ++ subtreeListL b := by
  induction a with
  | nil => simp [subtreeListL]
  | cons x xs ih => simp [subtreeListL, ih]

theorem cidLoop_eq (l : List Elem) (acc : Counts) :
    cidLoop l acc =
      List.foldl Counts.add acc ((subtreeListL l).map cidContrib) := by
  induction l, acc using cidLoop.induct with
  | case1 acc => simp [cidLoop, subtreeListL]
  | case2 e rest acc ih =>
    rw [cidLoop]
    rw [ih]
    cases e with
    | node d c =>
      simp only [Elem.children, subtreeListL, Elem.subtreeList,
        subtreeListL_append, List.map_append, List.map_cons,
        List.foldl_append, List.foldl_cons]

/-- C7 counterexample tree: a visible container, an invisible wrapper
inside it, and a visible button inside the invisible wrapper. -/
def c7Button : Elem :=
  .node
    { tag := "button"
      visible := true
      interactive := true
      role := some "button" } []

def c7Hidden : Elem :=
  .node { tag := "div", visible := false } [c7Button]

def c7Root : Elem :=
  .node { tag := "div", visible := true } [c7Hidden]

/-- C7 counterexample — the claim says no element inside an invisible
subtree contributes to any of the four counts, yet the visible button
inside the invisible wrapper is counted: the walk does not prune
invisible branches. -/
theorem C7_counterexample :
    countInteractiveDescendants c7Root = ⟨1, 0, 0, 0⟩ ∧
    c7Hidden.data.visible = false ∧
    c7Button ∈ c7Hidden.subtreeList ∧
    c7Button ∈ c7Root.subtreeList ∧
    c7Button.data.visible = true ∧
    c7Button.data.interactive = true := by
  refine ⟨?_, rfl, ?_, ?_, rfl, rfl⟩
  · rw [countInteractiveDescendants, cidLoop_eq]
    simp [c7Root, c7Hidden, c7Button, Elem.subtreeList, subtreeListL,
      cidContrib, Counts.add, Elem.data]
  · simp [c7Hidden, c7Button, Elem.subtreeList, subtreeListL]
  · simp [c7Root, c7Hidden, c7Button, Elem.subtreeList, subtreeListL]

/-- C7 (amended) — countInteractiveDescendants is a single-pass
stack-based walk whose result is the per-node contribution summed over
the entire subtree, where a node contributes only when it is itself
visible and interactive; the walk does descend into invisible
subtrees, so visible interactive elements below an invisible node are
still counted. -/
theorem C7_count_histogram (e : Elem) :
    countInteractiveDescendants e =
      List.foldl Counts.add ⟨0, 0, 0, 0⟩ (e.subtreeList.map cidContrib) ∧
    (∀ x : Elem, (x.data.visible && x.data.interactive) = false →
      cidContrib x = ⟨0, 0, 0, 0⟩) := by
  constructor
  · rw [countInteractiveDescendants, cidLoop_eq]
    cases e with
    | node d c => simp [subtreeListL, Elem.subtreeList]
  · intro x hx
    unfold cidContrib
    rw [hx]
    rfl

/-- Witness for C10 exercising the whitespace clause at a concrete
cleaned string. -/
theorem C10_truncateByType_witness :
    (' ' ∈ (cleanStr " a  b ").data) ∧ isWsChar ' ' = true ∧
    (truncateByType " a  b " TruncType.ELEMENT_NAME).data.length ≤
      TRUNCATE_LIMITS TruncType.ELEMENT_NAME ∧ (' ' = ' ') := by
  have hmem : ' ' ∈ (cleanStr " a  b ").data := by
    have h : cleanStr " a  b " = "a b" := by
      simp [cleanStr, collapseWs, trimWs, isWsChar]
    rw [h]
    decide
  exact ⟨hmem, rfl,
    (C10_truncateByType " a  b " TruncType.ELEMENT_NAME).1,
    (C10_truncateByType " a  b " TruncType.ELEMENT_NAME).2.2.1 ' ' hmem rfl⟩

/-- Witness for C7 at the counterexample button with visibility off. -/
theorem C7_count_histogram_witness :
    ((c7Hidden.data.visible && c7Hidden.data.interactive) = false) ∧
    cidContrib c7Hidden = ⟨0, 0, 0, 0⟩ :=
  ⟨rfl, (C7_count_histogram c7Hidden).2 c7Hidden rfl⟩

/-! ## C2 — the structure-mode truncated flag -/

/-- The truncated flag returned by the structure loop always equals the
flag it was called with: the inner budget check that would set it is
unreachable, because the loop condition already requires the count to
be below the budget. -/
theorem structLoop_truncated (maxD maxLines : Nat) (ih : Bool)
    (q : List (Elem × Nat × String)) (count : Nat) (lines : List String)
    (tr : Bool) :
    (structLoop maxD maxLines ih q count lines tr).2 = tr := by
  induction q, count, lines, tr using structLoop.induct maxD maxLines ih with
  | case1 count lines tr => rw [structLoop]
  | case2 e depth ind rest count lines tr h1 =>
    rw [structLoop, if_pos h1]
  | case3 e depth ind rest count lines tr h1 h2 ih2 =>
    rw [structLoop, if_neg h1, if_pos h2]
    exact ih2
  | case4 e depth ind rest count lines tr h1 h2 sem h3 ih2 =>
    rw [structLoop, if_neg h1, if_neg h2, if_pos h3]
    exact ih2
  | case5 e depth ind rest count lines tr h1 h2 sem h3 h4 ih2 =>
    rw [structLoop, if_neg h1, if_neg h2, if_neg h3, if_pos h4]
    exact ih2
  | case6 e depth ind rest count lines tr h1 h2 sem h3 h4 h5 =>
    exact absurd h5 (by omega)
  | case7 e depth ind rest count lines tr h1 h2 sem h3 h4 h5 ih2 =>
    rw [structLoop, if_neg h1, if_neg h2, if_neg h3, if_neg h4, if_neg h5]
    exact ih2

/-- C2 failing input: a visible non-semantic container with two
navigation landmarks, snapshot with maxLines one. -/
def c2Nav1 : Elem :=
  .node
    { tag := "nav"
      role := some "navigation"
      visible := true
      xpath := "/nav[1]" } []

def c2Nav2 : Elem :=
  .node
    { tag := "nav"
      role := some "navigation"
      visible := true
      xpath := "/nav[2]" } []

def c2Body : Elem :=
  .node { tag := "div", visible := true } [c2Nav1, c2Nav2]

def c2Doc : Doc :=
  { url := "https://example.test/", title := "Two landmarks",
    body := c2Body }

/-- C2 — at the failing input (two landmarks, maxLines one) the
structure snapshot renders exactly one landmark line, yet the truncated
flag stays false for every input, so the quality is high and never
downgraded; this contradicts the claim that truncated is recorded. -/
theorem C2_truncated_never_set :
    (∀ (doc : Doc) (o : StructureOptions),
      (structLoop o.maxDepth o.maxLines o.includeHidden
        [(doc.body, 0, "")] 0 [] false).2 = false) ∧
    (structLoop 50 1 false [(c2Body, 0, "")] 0 [] false).1 =
      [structLine c2Nav1 ""] ∧
    (snapshotStructure c2Doc (StructureOptions.mk 50 false 1)).metadata.quality
      = .high ∧
    (snapshotStructure c2Doc
      (StructureOptions.mk 50 false 1)).metadata.capturedElements = 1 := by
  have htr := fun (doc : Doc) (o : StructureOptions) =>
    structLoop_truncated o.maxDepth o.maxLines o.includeHidden
      [(doc.body, 0, "")] 0 [] false
  have heval : structLoop 50 1 false [(c2Body, 0, "")] 0 [] false =
      ([structLine c2Nav1 ""], false) := by
    simp +decide [structLoop, c2Body, c2Nav1, c2Nav2, sIsLandmark,
      sIsHeading, sIsForm, elemVis, Elem.data, Elem.children,
      structLandmarkRoles]
  refine ⟨htr, ?_, ?_, ?_⟩
  · rw [heval]
  · show (if (structLoop 50 1 false [(c2Body, 0, "")] 0 [] false).2
        then Quality.medium else Quality.high) = Quality.high
    rw [heval]
    rfl
  · show (structLoop 50 1 false [(c2Body, 0, "")] 0 [] false).1.length = 1
    rw [heval]
    rfl

/-! ## C9 — hidden non-semantic elements in structure mode -/

/-- C9 concrete tree: a hidden non-semantic wrapper containing a
visible navigation landmark. -/
def c9Nav : Elem :=
  .node
    { tag := "nav"
      role := some "navigation"
      visible := true
      xpath := "/div/nav" } []

def c9Hidden : Elem :=
  .node { tag := "div", visible := false } [c9Nav]

def c9Body : Elem :=
  .node { tag := "body", visible := true } [c9Hidden]

def c9Doc : Doc :=
  { url := "https://example.test/", title := "Hidden wrapper",
    body := c9Body }

/-- C9 — in structure mode a popped element that fails the visibility
check and is not semantically significant is skipped while its children
are still enqueued; consequently the visible landmark below a hidden
wrapper is rendered, whereas the depth-first traversal engine prunes
the hidden branch entirely and never visits that landmark. -/
theorem C9_hidden_children_enqueued :
    (∀ (maxD maxLines : Nat) (e : Elem) (depth : Nat) (ind : String)
      (rest : List (Elem × Nat × String)) (count : Nat)
      (lines : List String) (tr : Bool),
      count < maxLines → ¬(depth > maxD) →
      (sIsLandmark e || sIsHeading e || sIsForm e) = false →
      e.data.visible = false →
      structLoop maxD maxLines false ((e, depth, ind) :: rest) count lines tr
        = structLoop maxD maxLines false
            (rest ++ e.children.map (fun c => (c, depth + 1, ind)))
            count lines tr) ∧
    (structLoop 50 100 false [(c9Body, 0, "")] 0 [] false).1 =
      [structLine c9Nav ""] ∧
    traverseElements c9Body (TraverseOptions.mk 50 false false) =
      [(c9Body, 0)] := by
  refine ⟨?_, ?_, ?_⟩
  · intro maxD maxLines e depth ind rest count lines tr hc hd hsem hv
    rw [structLoop, if_neg (not_not_intro hc), if_neg hd,
      if_pos (by simp [hsem, hv])]
  · simp +decide [structLoop, c9Body, c9Hidden, c9Nav, sIsLandmark,
      sIsHeading, sIsForm, elemVis, Elem.data, Elem.children,
      structLandmarkRoles]
  · simp +decide [traverseElements, travE, travL, c9Body, c9Hidden, c9Nav,
      elemVis, Elem.data]

/-- Witness for C9 applying the step equation at the concrete hidden
wrapper. -/
theorem C9_hidden_children_enqueued_witness :
    ((0 : Nat) < 100) ∧ ¬((1 : Nat) > 50) ∧
    ((sIsLandmark c9Hidden || sIsHeading c9Hidden || sIsForm c9Hidden)
      = false) ∧
    (c9Hidden.data.visible = false) ∧
    structLoop 50 100 false [(c9Hidden, 1, "")] 0 [] false
      = structLoop 50 100 false
          (c9Hidden.children.map (fun c => (c, 2, ""))) 0 [] false := by
  refine ⟨by omega, by omega, by decide, rfl, ?_⟩
  have h := (C9_hidden_children_enqueued).1 50 100 c9Hidden 1 "" [] 0 [] false
    (by omega) (by omega) (by decide) rfl
  simpa using h

/-! ## The interactive-mode loop invariant -/

theorem iStep_skip (st : IState) (e : Elem)
    (hint : e.data.interactive = false) : iStep st e = st := by
  simp [iStep, hint]

theorem iStep_norole (st : IState) (e : Elem)
    (hint : e.data.interactive = true) (hrole : e.data.role = none) :
    iStep st e = { st with total := st.total + 1 } := by
  simp [iStep, hint, hrole]

theorem iStep_emit (st : IState) (e : Elem) (r : String)
    (hint : e.data.interactive = true) (hrole : e.data.role = some r) :
    (iStep st e).total = st.total + 1 ∧
    (iStep st e).captured = st.captured + 1 ∧
    (iStep st e).ctr = st.ctr + 1 ∧
    (iStep st e).refs.map Prod.fst = st.refs.map Prod.fst ++
      [refToken st.ctr] ∧
    (iStep st e).refs.length = st.refs.length + 1 := by
  refine ⟨?_, ?_, ?_, ?_, ?_⟩ <;>
    simp [iStep, hint, hrole]

/-- The predicate for elements actually rendered by interactive mode. -/
def isCapturedInteractive (e : Elem) : Bool :=
  e.data.interactive && e.data.role.isSome

theorem iFold_spec (es : List Elem) (st : IState) :
    (iFold es st).total = st.total +
      es.countP (fun e => e.data.interactive) ∧
    (iFold es st).captured = st.captured +
      es.countP isCapturedInteractive ∧
    (iFold es st).ctr = st.ctr + es.countP isCapturedInteractive ∧
    (iFold es st).refs.map Prod.fst = st.refs.map Prod.fst ++
      (List.range' st.ctr (es.countP isCapturedInteractive)).map refToken ∧
    (iFold es st).refs.length = st.refs.length +
      es.countP isCapturedInteractive := by
  induction es generalizing st with
  | nil => simp [iFold]
  | cons e rest ih =>
    have hstep : iFold (e :: rest) st = iFold rest (iStep st e) := rfl
    rw [hstep]
    by_cases hint : e.data.interactive = true
    · rcases hrole : e.data.role with _ | r
      · rw [iStep_norole st e hint hrole]
        obtain ⟨ih1, ih2, ih3, ih4, ih5⟩ := ih { st with total := st.total + 1 }
        refine ⟨?_, ?_, ?_, ?_, ?_⟩ <;>
          simp [ih1, ih2, ih3, ih4, ih5, List.countP_cons, hint, hrole,
            isCapturedInteractive] <;> try omega
      · obtain ⟨ih1, ih2, ih3, ih4, ih5⟩ := ih (iStep st e)
        obtain ⟨e1, e2, e3, e4, e5⟩ := iStep_emit st e r hint hrole
        rw [e1] at ih1
        rw [e2] at ih2
        rw [e3] at ih3 ih4
        rw [e4] at ih4
        rw [e5] at ih5
        have hcnt : (e :: rest).countP isCapturedInteractive =
            rest.countP isCapturedInteractive + 1 := by
          simp [List.countP_cons, isCapturedInteractive, hint, hrole]
        have hcnt2 : (e :: rest).countP (fun e => e.data.interactive) =
            rest.countP (fun e => e.data.interactive) + 1 := by
          simp [List.countP_cons, hint]
        refine ⟨?_, ?_, ?_, ?_, ?_⟩
        · rw [ih1, hcnt2]; omega
        · rw [ih2, hcnt]; omega
        · rw [ih3, hcnt]; omega
        · rw [ih4, hcnt, List.range'_succ]
          simp
        · rw [ih5, hcnt]; omega
    · have hint' : e.data.interactive = false := by
        simpa using hint
      rw [iStep_skip st e hint']
      obtain ⟨ih1, ih2, ih3, ih4, ih5⟩ := ih st
      refine ⟨?_, ?_, ?_, ?_, ?_⟩ <;>
        simp [ih1, ih2, ih3, ih4, ih5, List.countP_cons, hint',
          isCapturedInteractive]

/-- C3 (amended) — in interactive mode, capturedElements counts the
traversed elements that are interactive and carry a role,
totalInteractiveElements counts all traversed interactive elements,
and quality is low when the viewport area is zero or nothing was
captured, medium when strictly less than half of the interactive
elements were captured, and high otherwise — in particular capture of
exactly half yields high, not medium. -/
theorem C3_quality_rule (re : RegexEngine) (doc : Doc)
    (o : InteractiveOptions) :
    (snapshotInteractive re doc o).metadata.capturedElements =
      (collectElements doc.body
        (TraverseOptions.mk o.maxDepth o.includeHidden false)).countP
        isCapturedInteractive ∧
    (snapshotInteractive re doc o).metadata.totalInteractiveElements =
      some ((collectElements doc.body
        (TraverseOptions.mk o.maxDepth o.includeHidden false)).countP
        (fun e => e.data.interactive)) ∧
    (snapshotInteractive re doc o).metadata.quality =
      (if doc.viewportWidth * doc.viewportHeight = 0 ∨
          (collectElements doc.body
            (TraverseOptions.mk o.maxDepth o.includeHidden false)).countP
            isCapturedInteractive = 0
       then Quality.low
       else if 2 * (collectElements doc.body
            (TraverseOptions.mk o.maxDepth o.includeHidden false)).countP
            isCapturedInteractive <
          (collectElements doc.body
            (TraverseOptions.mk o.maxDepth o.includeHidden false)).countP
            (fun e => e.data.interactive)
       then Quality.medium
       else Quality.high) := by
  obtain ⟨h1, h2, h3, h4, h5⟩ := iFold_spec
    (collectElements doc.body
      (TraverseOptions.mk o.maxDepth o.includeHidden false)) {}
  have hz : ({} : IState).total = 0 := rfl
  have hz2 : ({} : IState).captured = 0 := rfl
  rw [hz] at h1
  rw [hz2] at h2
  refine ⟨by simpa [snapshotInteractive] using h2,
    by simp [snapshotInteractive]; omega, ?_⟩
  by_cases hA : doc.viewportWidth * doc.viewportHeight = 0
  · have hlhs : (snapshotInteractive re doc o).metadata.quality =
        Quality.low := by
      simp only [snapshotInteractive]
      simp [hA]
    rw [hlhs, if_pos (Or.inl hA)]
  · by_cases hB : (collectElements doc.body
        (TraverseOptions.mk o.maxDepth o.includeHidden false)).countP
        isCapturedInteractive = 0
    · have hcap0 : (iFold (collectElements doc.body
          (TraverseOptions.mk o.maxDepth o.includeHidden false))
          {}).captured = 0 := by omega
      have hlhs : (snapshotInteractive re doc o).metadata.quality =
          Quality.low := by
        simp only [snapshotInteractive]
        simp [hcap0]
      rw [hlhs, if_pos (Or.inr hB)]
    · have hcapn : (iFold (collectElements doc.body
          (TraverseOptions.mk o.maxDepth o.includeHidden false))
          {}).captured ≠ 0 := by omega
      by_cases hC : 2 * (collectElements doc.body
          (TraverseOptions.mk o.maxDepth o.includeHidden false)).countP
          isCapturedInteractive <
          (collectElements doc.body
            (TraverseOptions.mk o.maxDepth o.includeHidden false)).countP
          (fun e => e.data.interactive)
      · have hC' : 2 * (iFold (collectElements doc.body
            (TraverseOptions.mk o.maxDepth o.includeHidden false))
            {}).captured <
            (iFold (collectElements doc.body
              (TraverseOptions.mk o.maxDepth o.includeHidden false))
              {}).total := by omega
        have hlhs : (snapshotInteractive re doc o).metadata.quality =
            Quality.medium := by
          simp only [snapshotInteractive]
          simp [hA, hcapn, hC']
        rw [hlhs, if_neg (not_or.mpr ⟨hA, hB⟩), if_pos hC]
      · have hC' : ¬(2 * (iFold (collectElements doc.body
            (TraverseOptions.mk o.maxDepth o.includeHidden false))
            {}).captured <
            (iFold (collectElements doc.body
              (TraverseOptions.mk o.maxDepth o.includeHidden false))
              {}).total) := by omega
        have hlhs : (snapshotInteractive re doc o).metadata.quality =
            Quality.high := by
          simp only [snapshotInteractive]
          simp [hA, hcapn, hC']
        rw [hlhs, if_neg (not_or.mpr ⟨hA, hB⟩), if_neg hC]

/-- C3 counterexample input: one interactive element with a role (the
button) and one interactive element without a role (a plain container
with a tab index), so exactly half of the interactive elements are
captured. -/
def c3Button : Elem :=
  .node
    { tag := "button"
      role := some "button"
      visible := true
      interactive := true } []

def c3Plain : Elem :=
  .node
    { tag := "div"
      visible := true
      interactive := true
      tabindex := some 0 } []

def c3Body : Elem :=
  .node { tag := "body", visible := true } [c3Button, c3Plain]

def c3Doc : Doc :=
  { url := "https://example.test/", title := "Half captured",
    body := c3Body }

/-- C3 counterexample — with a nonzero viewport, one captured element
out of two interactive ones (exactly 50 percent, less than 100
percent), the claim requires quality medium, but the snapshot reports
quality high. -/
theorem C3_counterexample :
    (snapshotInteractive (fun _ _ => none) c3Doc {}).metadata.capturedElements
      = 1 ∧
    (snapshotInteractive (fun _ _ =>
      none) c3Doc {}).metadata.totalInteractiveElements = some 2 ∧
    c3Doc.viewportWidth * c3Doc.viewportHeight ≠ 0 ∧
    (snapshotInteractive (fun _ _ => none) c3Doc {}).metadata.quality
      = Quality.high := by
  refine ⟨?_, ?_, by decide, ?_⟩ <;>
    simp +decide [snapshotInteractive, iFold, iStep, collectElements,
      traverseElements, travE, travL, c3Doc, c3Body, c3Button, c3Plain,
      elemVis, Elem.data, Elem.children]

/-! ## The all-mode loop invariant -/

theorem aStep_skip (st : AState) (e : Elem) (hrole : e.data.role = none)
    (hint : e.data.interactive = false) : aStep st e = st := by
  simp [aStep, hrole, hint]

theorem aStep_blank (st : AState) (e : Elem) (hrole : e.data.role = none)
    (hint : e.data.interactive = true) :
    aStep st e = { st with
      interactiveCount := st.interactiveCount + 1
      lines := st.lines ++ [""] } := by
  simp [aStep, hrole, hint]

theorem aStep_emit (st : AState) (e : Elem) (r : String)
    (hrole : e.data.role = some r) :
    (aStep st e).ctr = st.ctr + 1 ∧
    (aStep st e).refs.map Prod.fst = st.refs.map Prod.fst ++
      [refToken st.ctr] ∧
    (aStep st e).refs.length = st.refs.length + 1 ∧
    (aStep st e).lines.length = st.lines.length + 1 := by
  have hs : e.data.role.isNone = false := by simp [hrole]
  refine ⟨?_, ?_, ?_, ?_⟩ <;> simp [aStep, hrole, hs]

/-- Predicate for elements emitted as lines by all mode. -/
def isAllLine (e : Elem) : Bool :=
  e.data.role.isSome || e.data.interactive

theorem aFold_spec (es : List Elem) (st : AState) :
    (aFold es st).ctr = st.ctr +
      es.countP (fun e => e.data.role.isSome) ∧
    (aFold es st).refs.map Prod.fst = st.refs.map Prod.fst ++
      (List.range' st.ctr
        (es.countP (fun e => e.data.role.isSome))).map refToken ∧
    (aFold es st).refs.length = st.refs.length +
      es.countP (fun e => e.data.role.isSome) ∧
    (aFold es st).lines.length = st.lines.length +
      es.countP isAllLine := by
  induction es generalizing st with
  | nil => simp [aFold]
  | cons e rest ih =>
    have hstep : aFold (e :: rest) st = aFold rest (aStep st e) := rfl
    rw [hstep]
    rcases hrole : e.data.role with _ | r
    · by_cases hint : e.data.interactive = true
      · rw [aStep_blank st e hrole hint]
        obtain ⟨ih1, ih2, ih3, ih4⟩ := ih
          { st with
            interactiveCount := st.interactiveCount + 1
            lines := st.lines ++ [""] }
        refine ⟨?_, ?_, ?_, ?_⟩ <;>
          simp [ih1, ih2, ih3, ih4, List.countP_cons, hrole, hint,
            isAllLine] <;> omega
      · have hint' : e.data.interactive = false := by simpa using hint
        rw [aStep_skip st e hrole hint']
        obtain ⟨ih1, ih2, ih3, ih4⟩ := ih st
        refine ⟨?_, ?_, ?_, ?_⟩ <;>
          simp [ih1, ih2, ih3, ih4, List.countP_cons, hrole, hint',
            isAllLine]
    · obtain ⟨ih1, ih2, ih3, ih4⟩ := ih (aStep st e)
      obtain ⟨e1, e2, e3, e4⟩ := aStep_emit st e r hrole
      rw [e1] at ih1 ih2
      rw [e2] at ih2
      rw [e3] at ih3
      rw [e4] at ih4
      have hcnt : (e :: rest).countP (fun e => e.data.role.isSome) =
          rest.countP (fun e => e.data.role.isSome) + 1 := by
        simp [List.countP_cons, hrole]
      have hcnt2 : (e :: rest).countP isAllLine =
          rest.countP isAllLine + 1 := by
        simp [List.countP_cons, isAllLine, hrole]
      refine ⟨?_, ?_, ?_, ?_⟩
      · rw [ih1, hcnt]; omega
      · rw [ih2, hcnt, List.range'_succ]
        simp
      · rw [ih3, hcnt]; omega
      · rw [ih4, hcnt2]; omega

/-! ## The outline recursion invariant -/

theorem outStats_ctr (e : Elem) (st : OState) :
    (outStats e st).ctr = st.ctr := rfl

theorem outStats_refs (e : Elem) (st : OState) :
    (outStats e st).refs = st.refs := rfl

theorem outPush_ctr (i : Bool) (l : String) (st : OState) :
    (outPush i l st).ctr = st.ctr := by
  unfold outPush; split <;> rfl

theorem outPush_refs (i : Bool) (l : String) (st : OState) :
    (outPush i l st).refs = st.refs := by
  unfold outPush; split <;> rfl

theorem outBranch_spec (e : Elem) (ind : Nat) (st : OState) :
    ((outBranch e ind st).2.2.ctr = st.ctr ∧
      (outBranch e ind st).2.2.refs = st.refs) ∨
    ((outBranch e ind st).2.2.ctr = st.ctr + 1 ∧
      (outBranch e ind st).2.2.refs.map Prod.fst =
        st.refs.map Prod.fst ++ [refToken st.ctr] ∧
      (outBranch e ind st).2.2.refs.length = st.refs.length + 1) := by
  simp only [outBranch]
  split_ifs <;>
    first
    | exact Or.inl ⟨rfl, rfl⟩
    | (right
       refine ⟨rfl, ?_, ?_⟩ <;> simp)

mutual
theorem outGo_spec (maxD : Nat) (ihid : Bool) :
    ∀ (e : Elem) (dep ind : Nat) (st : OState),
      ∃ k, (outGo maxD ihid e dep ind st).ctr = st.ctr + k ∧
        (outGo maxD ihid e dep ind st).refs.map Prod.fst =
          st.refs.map Prod.fst ++ (List.range' st.ctr k).map refToken ∧
        (outGo maxD ihid e dep ind st).refs.length = st.refs.length + k
  | .node d c, dep, ind, st => by
    rw [outGo]
    by_cases h1 : dep > maxD
    · rw [if_pos h1]; exact ⟨0, by simp⟩
    · rw [if_neg h1]
      by_cases h2 : (!ihid && !(Elem.node d c).data.visible) = true
      · rw [if_pos h2]; exact ⟨0, by simp⟩
      · rw [if_neg h2]
        obtain ⟨k2, hA, hB, hC⟩ := outGoL_spec maxD ihid c (dep + 1)
          (if (outBranch (Elem.node d c) ind
              (outStats (Elem.node d c) st)).1
           then ind + 1 else ind)
          (outPush (outBranch (Elem.node d c) ind
              (outStats (Elem.node d c) st)).1
            (outBranch (Elem.node d c) ind
              (outStats (Elem.node d c) st)).2.1
            (outBranch (Elem.node d c) ind
              (outStats (Elem.node d c) st)).2.2)
        rw [outPush_ctr] at hA
        rw [outPush_refs] at hB hC
        rw [outPush_ctr] at hB
        rcases outBranch_spec (Elem.node d c) ind
            (outStats (Elem.node d c) st) with ⟨b1, b2⟩ | ⟨b1, b2, b3⟩
        · rw [outStats_ctr] at b1
          rw [outStats_refs] at b2
          refine ⟨k2, ?_, ?_, ?_⟩
          · rw [hA, b1]
          · rw [hB, b2, b1]
          · rw [hC, b2]
        · rw [outStats_ctr] at b1
          rw [outStats_refs] at b2 b3
          refine ⟨k2 + 1, ?_, ?_, ?_⟩
          · rw [hA, b1]; omega
          · rw [hB, b2, b1, List.range'_succ]
            simp [outStats_ctr]
          · rw [hC, b3]; omega
theorem outGoL_spec (maxD : Nat) (ihid : Bool) :
    ∀ (es : List Elem) (dep ind : Nat) (st : OState),
      ∃ k, (outGoL maxD ihid es dep ind st).ctr = st.ctr + k ∧
        (outGoL maxD ihid es dep ind st).refs.map Prod.fst =
          st.refs.map Prod.fst ++ (List.range' st.ctr k).map refToken ∧
        (outGoL maxD ihid es dep ind st).refs.length = st.refs.length + k
  | [], dep, ind, st => by
    rw [outGoL]; exact ⟨0, by simp⟩
  | e :: es, dep, ind, st => by
    rw [outGoL]
    obtain ⟨k1, hA1, hB1, hC1⟩ := outGo_spec maxD ihid e dep ind st
    obtain ⟨k2, hA2, hB2, hC2⟩ := outGoL_spec maxD ihid es dep ind
      (outGo maxD ihid e dep ind st)
    refine ⟨k1 + k2, ?_, ?_, ?_⟩
    · rw [hA2, hA1]; omega
    · rw [hB2, hB1, hA1]
      rw [List.append_assoc, ← List.map_append]
      have := List.range'_append st.ctr k1 k2 1
      simp only [one_mul] at this
      rw [this, Nat.add_comm k2 k1]
    · rw [hC2, hC1]; omega
end

/-- C4 — in each ref-emitting mode (interactive, outline, all) the
reference tokens stored in one pass form, in emission order, exactly
the sequence of tokens for zero up to the number of refs minus one,
are pairwise distinct, and every token is the literal at-ref colon
prefix followed by the canonical base-10 numeral (nonempty, digits
only, no leading zero). -/
theorem C4_ref_tokens (re : RegexEngine) (doc : Doc)
    (oi : InteractiveOptions) (oo : OutlineOptions) (oa : AllOptions) :
    ((snapshotInteractive re doc oi).refs.map Prod.fst =
      (List.range ((snapshotInteractive re doc oi).refs.length)).map
        refToken) ∧
    ((snapshotOutline re doc oo).refs.map Prod.fst =
      (List.range ((snapshotOutline re doc oo).refs.length)).map
        refToken) ∧
    ((snapshotAll doc oa).refs.map Prod.fst =
      (List.range ((snapshotAll doc oa).refs.length)).map refToken) ∧
    ((snapshotInteractive re doc oi).refs.map Prod.fst).Nodup ∧
    ((snapshotOutline re doc oo).refs.map Prod.fst).Nodup ∧
    ((snapshotAll doc oa).refs.map Prod.fst).Nodup ∧
    (∀ n : Nat, refToken n = "@ref:" ++ natToString n ∧
      canonicalDecimal (natToString n)) := by
  obtain ⟨-, -, -, hi4, hi5⟩ := iFold_spec
    (collectElements doc.body
      (TraverseOptions.mk oi.maxDepth oi.includeHidden false)) {}
  obtain ⟨ko, ho1, ho2, ho3⟩ := outGo_spec oo.maxDepth oo.includeHidden
    doc.body 0 0 {}
  obtain ⟨-, ha2, ha3, -⟩ := aFold_spec
    (collectElements doc.body
      (TraverseOptions.mk oa.maxDepth oa.includeHidden false)) {}
  have hzi : ({} : IState).refs = [] := rfl
  have hzo : ({} : OState).refs = [] := rfl
  have hza : ({} : AState).refs = [] := rfl
  have hi : (snapshotInteractive re doc oi).refs =
      (iFold (collectElements doc.body
        (TraverseOptions.mk oi.maxDepth oi.includeHidden false)) {}).refs :=
    rfl
  have ho : (snapshotOutline re doc oo).refs =
      (outGo oo.maxDepth oo.includeHidden doc.body 0 0 {}).refs := rfl
  have ha : (snapshotAll doc oa).refs =
      (aFold (collectElements doc.body
        (TraverseOptions.mk oa.maxDepth oa.includeHidden false)) {}).refs :=
    rfl
  rw [hzi] at hi4 hi5
  rw [hzo] at ho2 ho3
  rw [hza] at ha2 ha3
  simp only [List.map_nil, List.length_nil, List.nil_append,
    Nat.zero_add] at hi4 hi5 ho2 ho3 ha2 ha3
  have hmapi : (snapshotInteractive re doc oi).refs.map Prod.fst =
      (List.range ((snapshotInteractive re doc oi).refs.length)).map
        refToken := by
    rw [hi, hi4, hi5, List.range_eq_range']
  have hmapo : (snapshotOutline re doc oo).refs.map Prod.fst =
      (List.range ((snapshotOutline re doc oo).refs.length)).map
        refToken := by
    rw [ho, ho2, ho3, List.range_eq_range']
  have hmapa : (snapshotAll doc oa).refs.map Prod.fst =
      (List.range ((snapshotAll doc oa).refs.length)).map refToken := by
    rw [ha, ha2, ha3, List.range_eq_range']
  refine ⟨hmapi, hmapo, hmapa, ?_, ?_, ?_, fun n =>
    ⟨rfl, natToString_canonical n⟩⟩
  · rw [hmapi]
    exact (List.nodup_range _).map refToken_injective
  · rw [hmapo]
    exact (List.nodup_range _).map refToken_injective
  · rw [hmapa]
    exact (List.nodup_range _).map refToken_injective

/-- C1 counterexample input: a document whose body is itself a
navigation landmark, rendered in structure mode. -/
def c1Body : Elem :=
  .node
    { tag := "nav"
      role := some "navigation"
      visible := true
      xpath := "/nav" } []

def c1Doc : Doc :=
  { url := "https://example.test/", title := "One landmark",
    body := c1Body }

/-- C1 counterexample — in structure mode the ref table is empty while
capturedElements equals the number of rendered lines, so with one
rendered landmark the two differ. -/
theorem C1_counterexample :
    (snapshotStructure c1Doc {}).metadata.capturedElements = 1 ∧
    (snapshotStructure c1Doc {}).refs.length = 0 ∧
    (snapshotStructure c1Doc {}).metadata.capturedElements ≠
      (snapshotStructure c1Doc {}).refs.length := by
  have heval : structLoop 50 100 false [(c1Body, 0, "")] 0 [] false =
      ([structLine c1Body ""], false) := by
    simp +decide [structLoop, c1Body, sIsLandmark, sIsHeading, sIsForm,
      elemVis, Elem.data, Elem.children, structLandmarkRoles]
  have hcap : (snapshotStructure c1Doc {}).metadata.capturedElements =
      (structLoop 50 100 false [(c1Body, 0, "")] 0 [] false).1.length := rfl
  have hrefs : (snapshotStructure c1Doc {}).refs = [] := rfl
  rw [hcap, heval]
  rw [hrefs]
  exact ⟨rfl, rfl, by decide⟩

/-- C1 (amended) — capturedElements equals the size of the ref table in
head, interactive, outline and content modes; structure mode returns an
empty ref table but reports the number of rendered lines as
capturedElements; all mode reports the number of emitted lines, which
is at least (and can exceed) the size of its ref table. -/
theorem C1_captured_vs_refs (re : RegexEngine) (doc : Doc)
    (oi : InteractiveOptions) (oo : OutlineOptions) (oc : ContentOptions)
    (os : StructureOptions) (oa : AllOptions) :
    ((snapshotHead doc).metadata.capturedElements =
        (snapshotHead doc).refs.length ∧
      (snapshotHead doc).refs = []) ∧
    ((snapshotInteractive re doc oi).metadata.capturedElements =
      (snapshotInteractive re doc oi).refs.length) ∧
    ((snapshotOutline re doc oo).metadata.capturedElements =
      (snapshotOutline re doc oo).refs.length) ∧
    ((snapshotContent re doc oc).metadata.capturedElements =
        (snapshotContent re doc oc).refs.length ∧
      (snapshotContent re doc oc).refs = []) ∧
    ((snapshotStructure doc os).refs = [] ∧
      (snapshotStructure doc os).metadata.capturedElements =
        (structLoop os.maxDepth os.maxLines os.includeHidden
          [(doc.body, 0, "")] 0 [] false).1.length) ∧
    ((snapshotAll doc oa).metadata.capturedElements =
        (aFold (collectElements doc.body
          (TraverseOptions.mk oa.maxDepth oa.includeHidden false))
          {}).lines.length ∧
      (snapshotAll doc oa).refs.length ≤
        (snapshotAll doc oa).metadata.capturedElements) := by
  refine ⟨⟨rfl, rfl⟩, ?_, ?_, ⟨rfl, rfl⟩, ⟨rfl, rfl⟩, rfl, ?_⟩
  · obtain ⟨-, h2, -, -, h5⟩ := iFold_spec
      (collectElements doc.body
        (TraverseOptions.mk oi.maxDepth oi.includeHidden false)) {}
    have hcap : (snapshotInteractive re doc oi).metadata.capturedElements =
        (iFold (collectElements doc.body
          (TraverseOptions.mk oi.maxDepth oi.includeHidden false))
          {}).captured := rfl
    have href : (snapshotInteractive re doc oi).refs.length =
        (iFold (collectElements doc.body
          (TraverseOptions.mk oi.maxDepth oi.includeHidden false))
          {}).refs.length := rfl
    rw [hcap, href, h2, h5]
    simp
  · obtain ⟨ko, ho1, -, ho3⟩ := outGo_spec oo.maxDepth oo.includeHidden
      doc.body 0 0 {}
    have hcap : (snapshotOutline re doc oo).metadata.capturedElements =
        (outGo oo.maxDepth oo.includeHidden doc.body 0 0 {}).ctr := rfl
    have href : (snapshotOutline re doc oo).refs.length =
        (outGo oo.maxDepth oo.includeHidden doc.body 0 0 {}).refs.length :=
      rfl
    rw [hcap, href, ho1, ho3]
    simp
  · obtain ⟨-, -, ha3, ha4⟩ := aFold_spec
      (collectElements doc.body
        (TraverseOptions.mk oa.maxDepth oa.includeHidden false)) {}
    have hcap : (snapshotAll doc oa).metadata.capturedElements =
        (aFold (collectElements doc.body
          (TraverseOptions.mk oa.maxDepth oa.includeHidden false))
          {}).lines.length := rfl
    have href : (snapshotAll doc oa).refs.length =
        (aFold (collectElements doc.body
          (TraverseOptions.mk oa.maxDepth oa.includeHidden false))
          {}).refs.length := rfl
    rw [hcap, href, ha3, ha4]
    have hmono : (collectElements doc.body
        (TraverseOptions.mk oa.maxDepth oa.includeHidden false)).countP
          (fun e => e.data.role.isSome) ≤
        (collectElements doc.body
          (TraverseOptions.mk oa.maxDepth oa.includeHidden false)).countP
          isAllLine := by
      apply List.countP_mono_left
      intro a _ hp
      simp [isAllLine]
      simp at hp
      exact Or.inl hp
    simp only [List.length_nil]
    omega

/-! ## C5 — the two-line header format -/

theorem beginsWith_append (p s t : String) (h : ∃ r, s = p ++ r) :
    ∃ r, s ++ t = p ++ r := by
  obtain ⟨m, hm⟩ := h
  exact ⟨m ++ t, by rw [hm, String.append_assoc]⟩

/-- C5 counterexample input: a head-mode document with a small
viewport. -/
def c5Doc : Doc :=
  { url := "https://example.test/", title := "T", viewportWidth := 7,
    viewportHeight := 5, body := .node { tag := "body" } [] }

theorem natToString_lt10 (n : Nat) (h1 : n ≠ 0) (h2 : n < 10) :
    natToString n = ⟨[Nat.digitChar n]⟩ := by
  unfold natToString
  rw [if_neg h1, Nat.digits_of_lt 10 n h1 h2]
  rfl

theorem c5_head_tree :
    (snapshotHead c5Doc).tree =
      "URL: https://example.test/\nTITLE: T\nVIEWPORT: 7x5\nSTATUS: empty\nELEMENTS: total=0 interactive=0\nREADY_STATE: complete" := by
  have h7 : natToString 7 = "7" := by
    rw [natToString_lt10 7 (by decide) (by decide)]
    decide
  have h5n : natToString 5 = "5" := by
    rw [natToString_lt10 5 (by decide) (by decide)]
    decide
  have h0 : natToString 0 = "0" := rfl
  simp only [snapshotHead, c5Doc, h7, h5n, h0, Elem.descList,
    Elem.children, subtreeListL]
  decide

/-- C5 counterexample — the head-mode snapshot does not begin with the
PAGE header line: its text starts with a URL line instead. -/
theorem C5_counterexample :
    (¬∃ r, (snapshotHead c5Doc).tree = "PAGE: " ++ r) ∧
    (snapshotHead c5Doc).tree =
      "URL: https://example.test/\nTITLE: T\nVIEWPORT: 7x5\nSTATUS: empty\nELEMENTS: total=0 interactive=0\nREADY_STATE: complete" := by
  refine ⟨?_, c5_head_tree⟩
  rintro ⟨r, hr⟩
  rw [c5_head_tree] at hr
  have h1 : ("URL: https://example.test/\nTITLE: T\nVIEWPORT: 7x5\nSTATUS: empty\nELEMENTS: total=0 interactive=0\nREADY_STATE: complete").data.head?
      = some 'U' := by decide
  have h2 : ("PAGE: " ++ r).data.head? = some 'P' := by
    rw [String.data_append,
      List.head?_append_of_ne_nil ("PAGE: ").data (by decide)]
    decide
  rw [hr, h2] at h1
  exact absurd h1 (by decide)

set_option maxHeartbeats 1600000 in
/-- C5 (amended) — every snapshot mode except head returns a tree that
is the fixed two-line header (the PAGE line with url, title and
viewport, then a mode-specific summary line beginning with the mode
keyword) followed by a blank line and the content lines; head mode
instead emits URL, TITLE, VIEWPORT, STATUS, ELEMENTS and READY_STATE
lines. -/
theorem C5_header_format (re : RegexEngine) (doc : Doc)
    (oi : InteractiveOptions) (os : StructureOptions) (oo : OutlineOptions)
    (oc : ContentOptions) (oa : AllOptions) :
    (∃ u t, pageHeaderOf doc = "PAGE: " ++ u ++ " | " ++ t ++
      " | viewport=" ++ natToString doc.viewportWidth ++ "x" ++
      natToString doc.viewportHeight) ∧
    (∃ hdr ls, (snapshotInteractive re doc oi).tree =
      buildSnapshotOutput (pageHeaderOf doc) hdr ls ∧
      ∃ r, hdr = "SNAPSHOT: " ++ r) ∧
    (∃ hdr ls, (snapshotStructure doc os).tree =
      buildSnapshotOutput (pageHeaderOf doc) hdr ls ∧
      ∃ r, hdr = "STRUCTURE: " ++ r) ∧
    (∃ hdr ls, (snapshotOutline re doc oo).tree =
      buildSnapshotOutput (pageHeaderOf doc) hdr ls ∧
      ∃ r, hdr = "OUTLINE: " ++ r) ∧
    (∃ hdr ls, (snapshotContent re doc oc).tree =
      buildSnapshotOutput (pageHeaderOf doc) hdr ls ∧
      ∃ r, hdr = "CONTENT: " ++ r) ∧
    (∃ hdr ls, (snapshotAll doc oa).tree =
      buildSnapshotOutput (pageHeaderOf doc) hdr ls ∧
      ∃ r, hdr = "ALL: " ++ r) := by
  refine ⟨⟨_, _, rfl⟩, ?_, ?_, ?_, ?_, ?_⟩
  · simp only [snapshotInteractive]
    refine ⟨_, _, rfl, ?_⟩
    rcases hg : oi.grep with _ | g
    · simp only [hg]
      apply beginsWith_append
      apply beginsWith_append
      apply beginsWith_append
      exact ⟨"elements=", by decide⟩
    · simp only [hg]
      apply beginsWith_append
      apply beginsWith_append
      apply beginsWith_append
      apply beginsWith_append
      apply beginsWith_append
      apply beginsWith_append
      apply beginsWith_append
      exact ⟨"elements=", by decide⟩
  · simp only [snapshotStructure]
    refine ⟨_, _, rfl, ?_⟩
    apply beginsWith_append
    apply beginsWith_append
    apply beginsWith_append
    apply beginsWith_append
    exact ⟨"elements=", by decide⟩
  · simp only [snapshotOutline]
    refine ⟨_, _, rfl, ?_⟩
    rcases hg : oo.grep with _ | g
    · simp only [hg]
      apply beginsWith_append
      apply beginsWith_append
      apply beginsWith_append
      apply beginsWith_append
      apply beginsWith_append
      apply beginsWith_append
      apply beginsWith_append
      exact ⟨"landmarks=", by decide⟩
    · simp only [hg]
      apply beginsWith_append
      apply beginsWith_append
      apply beginsWith_append
      apply beginsWith_append
      apply beginsWith_append
      apply beginsWith_append
      apply beginsWith_append
      apply beginsWith_append
      apply beginsWith_append
      apply beginsWith_append
      apply beginsWith_append
      exact ⟨"landmarks=", by decide⟩
  · simp only [snapshotContent]
    refine ⟨_, _, rfl, ?_⟩
    rcases hg : oc.grep with _ | g
    · simp only [hg]
      apply beginsWith_append
      apply beginsWith_append
      apply beginsWith_append
      exact ⟨"sections=", by decide⟩
    · simp only [hg]
      apply beginsWith_append
      apply beginsWith_append
      apply beginsWith_append
      apply beginsWith_append
      apply beginsWith_append
      apply beginsWith_append
      apply beginsWith_append
      exact ⟨"sections=", by decide⟩
  · simp only [snapshotAll]
    refine ⟨_, _, rfl, ?_⟩
    apply beginsWith_append
    apply beginsWith_append
    apply beginsWith_append
    exact ⟨"elements=", by decide⟩

end BTCP
